import Mathlib

/-!
# Verification of the JackpotPredict multi-agent prediction core

Shallow embedding of the claim-relevant parts of the repository:

* `backend/app/agents/voting.py` — answer normalization, clustering,
  weighted voting (`WeightedVoting.vote`), and the guess-now decision
  (`WeightedVoting.should_guess`);
* `backend/app/agents/base_agent.py` — specialist response parsing
  (`BaseAgent.parse_response`);
* `backend/app/agents/orchestrator.py` — per-agent failure handling
  (`AgentOrchestrator._run_agent`) and turn coordination
  (`AgentOrchestrator.predict`);
* `backend/app/agents/oracle_agent.py` — `OracleAgent._parse_response`;
* `backend/app/core/reasoning_accumulator.py` — `ThinkerContext`,
  `ClueAnalysis`, `generate_context_injection`, `update_hypothesis_tracker`;
* `backend/app/api/routes.py` — session clue bookkeeping in `predict` and
  the thinker-insight merge in `get_thinker_status`.

Modelling conventions: Python floats are modelled as exact rationals (`ℚ`);
Python dicts are insertion-ordered association lists with distinct keys;
a Python function that can raise an uncaught exception is modelled with an
`Option` result (`none` = the exception escapes); `None`-able values are
`Option`s.  String operations are modelled for ASCII text (`str.lower`
maps `A`–`Z`; `str.strip` removes the ASCII whitespace characters).
-/

/-! ## Python string primitives -/

/-- The ASCII whitespace characters recognised by Python's `str.strip` /
regex `\s` (space, tab, newline, carriage return, form feed, vertical tab). -/
def pyIsSpace (c : Char) : Bool :=
  c = ' ' || c = '\t' || c = '\n' || c = '\x0d' || c = '\x0c' || c = '\x0b'

/-- Python `str.lower` (ASCII range). -/
def pyLower (s : String) : String :=
  String.mk (s.toList.map Char.toLower)

/-- Python string slicing `s[:n]`: the first `n` characters. -/
def pyTake (s : String) (n : Nat) : String :=
  String.mk (s.toList.take n)

/-- Python `s.replace(a, b)` for a single-character pattern and
replacement (the only form the embedded code uses). -/
def pyReplaceChar (s : String) (a b : Char) : String :=
  String.mk (s.toList.map (fun c => if c == a then b else c))

/-- Python `str.strip()`: remove leading and trailing whitespace. -/
def pyStrip (s : String) : String :=
  String.mk (((s.toList.dropWhile pyIsSpace).reverse.dropWhile pyIsSpace).reverse)

/-- Python `int()` truncation of a float (modelled as `ℚ`) toward zero. -/
def pyTrunc (q : ℚ) : Int :=
  if q ≥ 0 then ⌊q⌋ else -⌊-q⌋

/-- Rounding used by Python's `format(x, ".0f")`: round half to even. -/
def pyRoundHalfEven (q : ℚ) : Int :=
  let f := ⌊q⌋
  let r := q - f
  if r < 1/2 then f
  else if 1/2 < r then f + 1
  else if f % 2 = 0 then f else f + 1

/-- Python `f"{x:.0f}"` for a float modelled as `ℚ`. -/
def pyFormatF0 (q : ℚ) : String :=
  toString (pyRoundHalfEven q)

/-- Lookup in a Python dict with `String` keys (`d.get(k)`), modelled on an
insertion-ordered association list. -/
def dictGet {α : Type} (d : List (String × α)) (k : String) : Option α :=
  (d.find? (fun kv => kv.1 == k)).map (·.2)

/-- Lookup in a Python dict with `int` keys. -/
def dictGetNat {α : Type} (d : List (Nat × α)) (k : Nat) : Option α :=
  (d.find? (fun kv => kv.1 == k)).map (·.2)

/-! ## `voting.py` — data model -/

/-- `base_agent.AgentPrediction` (dataclass). -/
structure AgentPrediction where
  answer : String
  confidence : ℚ
  reasoning : String
  agent_name : String
  latency_ms : ℚ
deriving Repr, DecidableEq

/-- `voting.VoteResult` (dataclass): result of voting on one answer cluster. -/
structure VoteResult where
  answer : String
  total_votes : ℚ
  agents : List String
  avg_confidence : ℚ
deriving Repr, DecidableEq

/-- `voting.VotingResult` (dataclass): complete voting result. -/
structure VotingResult where
  recommended_pick : String
  recommended_confidence : ℚ
  key_insight : String
  agreement_strength : String
  vote_breakdown : List VoteResult
deriving Repr, DecidableEq

/-- The turn-3 (balanced) row of `voting.CLUE_WEIGHTS`. -/
def clueWeightsTurn3 : List (String × ℚ) :=
  [("lateral", 1.0), ("wordsmith", 1.0), ("popculture", 1.2),
   ("literal", 1.0), ("wildcard", 0.8)]

/-- `voting.CLUE_WEIGHTS`: voting weights by clue number. -/
def CLUE_WEIGHTS : List (Nat × List (String × ℚ)) :=
  [(1, [("lateral", 1.5), ("wordsmith", 1.5), ("popculture", 1.0),
        ("literal", 0.5), ("wildcard", 1.2)]),
   (2, [("lateral", 1.3), ("wordsmith", 1.3), ("popculture", 1.1),
        ("literal", 0.7), ("wildcard", 1.0)]),
   (3, clueWeightsTurn3),
   (4, [("lateral", 0.9), ("wordsmith", 0.9), ("popculture", 1.1),
        ("literal", 1.2), ("wildcard", 0.7)]),
   (5, [("lateral", 0.8), ("wordsmith", 0.8), ("popculture", 1.0),
        ("literal", 1.3), ("wildcard", 0.6)])]

/-! ## `voting.py` — normalization and clustering -/

/-- `voting.normalize_answer`: lowercase, strip surrounding whitespace, then
for each of the prefixes `"the "`, `"a "`, `"an "` in that order, remove it
if the (current) string starts with it. -/
def normalize_answer (answer : String) : String :=
  let normalized := (pyStrip (pyLower answer)).toList
  String.mk (["the ", "a ", "an "].foldl
    (fun n p => if p.toList.isPrefixOf n then n.drop p.toList.length else n)
    normalized)

/-- The dict-of-lists append idiom used by both `cluster_predictions` and
`update_hypothesis_tracker` (Python: `if k not in d: d[k] = []` followed by
`d[k].append(v)`), on an insertion-ordered association list. -/
def assocAppend {α : Type} (d : List (String × List α)) (k : String) (v : α) :
    List (String × List α) :=
  if (d.find? (fun kv => kv.1 == k)).isSome then
    d.map (fun kv => if kv.1 == k then (kv.1, kv.2 ++ [v]) else kv)
  else
    d ++ [(k, [v])]

/-- Append `name` to the cluster keyed `k`, creating the cluster if absent. -/
def clusterAdd (clusters : List (String × List String)) (k : String)
    (name : String) : List (String × List String) :=
  assocAppend clusters k name

/-- The body of the `for agent_name, pred in predictions.items()` loop of
`cluster_predictions`. -/
def clusterStep (clusters : List (String × List String))
    (kv : String × Option AgentPrediction) : List (String × List String) :=
  match kv.2 with
  | none => clusters
  | some pred => clusterAdd clusters (normalize_answer pred.answer) kv.1

/-- `voting.cluster_predictions`: group agents by identical normalized answer,
skipping `None` predictions; returns normalized_answer → agent names, in
first-seen order (Python dict insertion order). -/
def cluster_predictions (predictions : List (String × Option AgentPrediction)) :
    List (String × List String) :=
  predictions.foldl clusterStep []

/-! ## `voting.py` — `WeightedVoting.vote` -/

/-- The `VotingResult` returned by `vote` when there is no valid prediction. -/
def emptyVotingResult : VotingResult :=
  { recommended_pick := "Unknown"
    recommended_confidence := 0.0
    key_insight := "No valid predictions"
    agreement_strength := "none"
    vote_breakdown := [] }

/-- Stable insertion of a `VoteResult` into a list sorted descending by
`total_votes` (Python `list.sort(key=..., reverse=True)` is stable). -/
def insertVoteDesc (x : VoteResult) : List VoteResult → List VoteResult
  | [] => [x]
  | y :: ys => if x.total_votes ≥ y.total_votes then x :: y :: ys
               else y :: insertVoteDesc x ys

/-- Stable sort of vote results descending by `total_votes`. -/
def sortVotesDesc : List VoteResult → List VoteResult
  | [] => []
  | x :: xs => insertVoteDesc x (sortVotesDesc xs)

/-- The per-cluster tally of `WeightedVoting.vote`: weighted vote total,
canonical answer from the cluster's first agent, and unweighted mean
confidence.  `valid` plays the role of `valid_predictions`; the `.getD`
default is unreachable because every cluster member is a key of `valid`. -/
def tallyCluster (clue_weights : List (String × ℚ))
    (valid : List (String × AgentPrediction))
    (cluster : String × List String) : VoteResult :=
  let agent_names := cluster.2
  let preds := agent_names.map (fun name =>
    (dictGet valid name).getD ⟨"", 0, "", "", 0⟩)
  let total_votes := (agent_names.map (fun name =>
    ((dictGet clue_weights name).getD 1.0) *
      ((dictGet valid name).getD ⟨"", 0, "", "", 0⟩).confidence)).sum
  let confidences := preds.map (·.confidence)
  { answer := (preds.headD ⟨"", 0, "", "", 0⟩).answer
    total_votes := total_votes
    agents := agent_names
    avg_confidence := confidences.sum / confidences.length }

/-- Key-insight extraction of `WeightedVoting.vote`: the reasoning of the
strictly-highest-confidence member of the winning cluster (initial best
confidence `0.0`, insight `"No insight"`). -/
def extractKeyInsight (valid : List (String × AgentPrediction))
    (winner_agents : List String) : String :=
  (winner_agents.foldl
    (fun acc name =>
      let pred := (dictGet valid name).getD ⟨"", 0, "", "", 0⟩
      if pred.confidence > acc.1 then (pred.confidence, pred.reasoning) else acc)
    ((0.0 : ℚ), "No insight")).2

/-- `WeightedVoting.vote` with the default `CLUE_WEIGHTS` table: weighted
voting over the agents' predictions for the given clue number.  The `[]`
match arm is unreachable (clusters of a non-empty dict are non-empty). -/
def vote (predictions : List (String × Option AgentPrediction))
    (clue_number : Nat) : VotingResult :=
  let clue_weights := (dictGetNat CLUE_WEIGHTS clue_number).getD clueWeightsTurn3
  let valid := predictions.filterMap (fun kv => kv.2.map (fun p => (kv.1, p)))
  if valid.isEmpty then emptyVotingResult
  else
    let clusters := cluster_predictions (valid.map (fun kv => (kv.1, some kv.2)))
    let vote_results := (clusters.map (tallyCluster clue_weights valid))
    match sortVotesDesc vote_results with
    | [] => emptyVotingResult
    | winner :: rest =>
      let num_agreeing := winner.agents.length
      let agreement_strength :=
        if num_agreeing ≥ 4 then "strong"
        else if num_agreeing ≥ 2 then "moderate"
        else "weak"
      { recommended_pick := winner.answer
        recommended_confidence := winner.avg_confidence
        key_insight := extractKeyInsight valid winner.agents
        agreement_strength := agreement_strength
        vote_breakdown := winner :: rest }

/-! ## `voting.py` — `WeightedVoting.should_guess` -/

/-- The `agreement_order` dict of `should_guess`. -/
def agreement_order : List (String × Nat) :=
  [("none", 0), ("weak", 1), ("moderate", 2), ("strong", 3)]

/-- The `thresholds` dict of `should_guess`: clue number →
(min confidence, min agreement strength). -/
def guessThresholds : List (Nat × (ℚ × String)) :=
  [(1, (0.90, "strong")), (2, (0.85, "strong")), (3, (0.75, "moderate")),
   (4, (0.65, "weak")), (5, (0.0, "none"))]

/-- `WeightedVoting.should_guess`: `(should_guess, rationale)`, or `none`
when the code would raise a `KeyError` (an `agreement_strength` outside the
`agreement_order` dict, reached only when `conf ≥ min_conf` thanks to
Python's short-circuiting `and`). -/
def should_guess (voting_result : VotingResult) (clue_number : Nat) :
    Option (Bool × String) :=
  let conf := voting_result.recommended_confidence
  let agreement := voting_result.agreement_strength
  let num_agreeing := match voting_result.vote_breakdown with
    | [] => 0
    | v :: _ => v.agents.length
  let mc := (dictGetNat guessThresholds clue_number).getD (0.75, "moderate")
  let min_conf := mc.1
  let min_agreement := mc.2
  if clue_number == 5 then some (true, "Last clue - must guess now")
  else if conf < min_conf then
    some (false, "Confidence " ++ pyFormatF0 (conf * 100) ++ "% - wait for more clues")
  else
    match dictGet agreement_order agreement, dictGet agreement_order min_agreement with
    | some ao, some mo =>
      if ao ≥ mo then
        some (true, toString num_agreeing ++ " agents agree at " ++
          pyFormatF0 (conf * 100) ++ "% confidence")
      else
        some (false, "Confidence " ++ pyFormatF0 (conf * 100) ++ "% - wait for more clues")
    | _, _ => none

/-! ## `base_agent.py` — `BaseAgent.parse_response`

The three fields are extracted with `re.search` (case-insensitive):
`ANSWER:\s*(.+?)(?:\n|$)`, `CONFIDENCE:\s*(\d+(?:\.\d+)?)` and
`REASONING:\s*(.+?)(?:\n|$)`.  The search functions below implement the
leftmost-match-with-backtracking semantics of those three patterns on the
character list of the response text. -/

/-- Case-insensitive prefix test (the tag is given in lowercase). -/
def isPrefixCI : List Char → List Char → Bool
  | [], _ => true
  | _ :: _, [] => false
  | t :: ts, c :: cs => t == c.toLower && isPrefixCI ts cs

/-- Backtracking step of `\s*(.+?)(?:\n|$)` when only whitespace follows the
tag: the capture degenerates to the last non-`'\n'` whitespace character
(the `.` can still consume one backtracked whitespace char), if any. -/
def captureBack (w : List Char) : Option (List Char) :=
  match w.reverse.dropWhile (fun c => c == '\n') with
  | [] => none
  | c :: _ => some [c]

/-- Match `\s*(.+?)(?:\n|$)` at the start of `l` and return the capture:
after the maximal whitespace run, the (non-empty) run of characters up to
the next newline or the end of the string. -/
def captureTail (l : List Char) : Option (List Char) :=
  let w := l.takeWhile pyIsSpace
  let r := l.drop w.length
  if r.isEmpty then captureBack w
  else some (r.takeWhile (fun c => c ≠ '\n'))

/-- `re.search` for `TAG\s*(.+?)(?:\n|$)` (IGNORECASE): try every start
position from the left; at each occurrence of the tag the tail must also
match, otherwise the search continues further right. -/
def searchTagCapture (tag : List Char) : List Char → Option (List Char)
  | [] => none
  | c :: rest =>
    if isPrefixCI tag (c :: rest) then
      match captureTail ((c :: rest).drop tag.length) with
      | some cap => some cap
      | none => searchTagCapture tag rest
    else searchTagCapture tag rest

/-- Numeric value of a list of decimal digit characters. -/
def digitsToNat (ds : List Char) : Nat :=
  ds.foldl (fun acc c => acc * 10 + (c.toNat - '0'.toNat)) 0

/-- Match `\s*(\d+(?:\.\d+)?)` at the start of `l` and return the numeric
value of the capture (whitespace chars are not digits, so the greedy `\s*`
never needs to backtrack here). -/
def numberAfterWs (l : List Char) : Option ℚ :=
  let r := l.dropWhile pyIsSpace
  let ds := r.takeWhile Char.isDigit
  if ds.isEmpty then none
  else
    match r.drop ds.length with
    | '.' :: rest2 =>
      let fs := rest2.takeWhile Char.isDigit
      if fs.isEmpty then some (digitsToNat ds : ℚ)
      else some ((digitsToNat ds : ℚ) + (digitsToNat fs : ℚ) / ((10 : ℚ) ^ fs.length))
    | _ => some (digitsToNat ds : ℚ)

/-- `re.search` for `TAG\s*(\d+(?:\.\d+)?)` (IGNORECASE). -/
def searchTagNumber (tag : List Char) : List Char → Option ℚ
  | [] => none
  | c :: rest =>
    if isPrefixCI tag (c :: rest) then
      match numberAfterWs ((c :: rest).drop tag.length) with
      | some q => some q
      | none => searchTagNumber tag rest
    else searchTagNumber tag rest

/-- `BaseAgent.parse_response`: extract `ANSWER` (required — `None` i.e.
parse failure when absent), `CONFIDENCE` (optional, default `0.5`, divided
by 100 and clamped to `[0,1]`) and `REASONING` (optional, default
`"No reasoning"`, stripped and truncated to 50 characters). -/
def parse_response (AGENT_NAME : String) (content : String) :
    Option AgentPrediction :=
  match searchTagCapture "answer:".toList content.toList with
  | none => none
  | some cap =>
    let answer := pyStrip (String.mk cap)
    let rawConfidence : ℚ :=
      match searchTagNumber "confidence:".toList content.toList with
      | some v => v / 100
      | none => 0.5
    let confidence := max 0.0 (min 1.0 rawConfidence)
    let reasoning :=
      match searchTagCapture "reasoning:".toList content.toList with
      | some cap2 => pyTake (pyStrip (String.mk cap2)) 50
      | none => "No reasoning"
    some { answer := answer, confidence := confidence, reasoning := reasoning,
           agent_name := AGENT_NAME, latency_ms := 0.0 }

/-! ## `reasoning_accumulator.py` — data model -/

/-- `AgentSnapshot` (dataclass): compressed prediction snapshot. -/
structure AgentSnapshot where
  agent_name : String
  answer : String
  confidence : ℚ
  insight : String
deriving Repr, DecidableEq

/-- `OracleGuess` (dataclass). -/
structure OracleGuess where
  answer : String
  confidence : Int
  explanation : String
deriving Repr, DecidableEq

/-- `ThinkerInsight` (dataclass): deep analysis result from the Thinker. -/
structure ThinkerInsight where
  clue_number : Int
  top_guess : String
  confidence : Int
  hypothesis_reasoning : String
  key_patterns : List String
  refined_guesses : List OracleGuess
  narrative_arc : String
  wordplay_analysis : String
  latency_ms : ℚ
  completed : Bool := true
deriving Repr, DecidableEq

/-- `ThinkerContext` (dataclass): accumulated thinker insights;
`last_updated` is a wall-clock timestamp. -/
structure ThinkerContext where
  insights : List ThinkerInsight := []
  last_updated : ℚ := 0.0
deriving Repr, DecidableEq

/-- `ThinkerContext.add_insight`; the wall-clock reading `time.time()` is an
explicit `now` argument. -/
def ThinkerContext.add_insight (tc : ThinkerContext) (insight : ThinkerInsight)
    (now : ℚ) : ThinkerContext :=
  { insights := tc.insights ++ [insight], last_updated := now }

/-- `ThinkerContext.get_for_clue`: first insight recorded for a clue number. -/
def ThinkerContext.get_for_clue (tc : ThinkerContext) (clue_number : Int) :
    Option ThinkerInsight :=
  tc.insights.find? (fun insight => insight.clue_number == clue_number)

/-- `ThinkerContext.get_prior_insight`: the insight for the previous clue. -/
def ThinkerContext.get_prior_insight (tc : ThinkerContext) (current_clue : Int) :
    Option ThinkerInsight :=
  tc.get_for_clue (current_clue - 1)

/-- `OracleSynthesis` (dataclass, `reasoning_accumulator.py`): note it has
exactly the four fields `top_3`, `key_theme`, `blind_spot`, `latency_ms`. -/
structure OracleSynthesis where
  top_3 : List OracleGuess
  key_theme : String
  blind_spot : String
  latency_ms : ℚ
deriving Repr, DecidableEq

/-- `ClueAnalysis` (dataclass): the durable per-turn record; `analyzed_at`
is a wall-clock timestamp. -/
structure ClueAnalysis where
  clue_number : Int
  clue_text : String
  top_answer : String
  top_confidence : ℚ
  top_agents : List String
  alt_answer : Option String
  alt_confidence : Option ℚ
  alt_agents : List String
  confidence_delta : ℚ
  agent_snapshots : List AgentSnapshot
  agreement_strength : String
  oracle_synthesis : Option OracleSynthesis := none
  analyzed_at : ℚ := 0.0
deriving Repr, DecidableEq

/-! ## `reasoning_accumulator.py` — `generate_context_injection` -/

/-- `ReasoningAccumulator._format_trend`: confidence delta → trend marker. -/
def formatTrend (delta : ℚ) : String :=
  if delta > 0.05 then "[+" ++ pyFormatF0 (delta * 100) ++ "%]"
  else if delta < -0.05 then "[" ++ pyFormatF0 (delta * 100) ++ "%]"
  else if delta == 0 then "[NEW]"
  else "[stable]"

/-- `ReasoningAccumulator._summarize_evolution` (callers guarantee at least
two analyses; the fallback arm is unreachable). -/
def summarizeEvolution (analyses : List ClueAnalysis) : String :=
  match analyses.head?, analyses.getLast? with
  | some first, some last =>
    if pyLower first.top_answer == pyLower last.top_answer then
      let delta := last.top_confidence - first.top_confidence
      if delta > 0.1 then
        first.top_answer ++ " strengthening (+" ++ pyFormatF0 (delta * 100) ++
          "% over " ++ toString analyses.length ++ " clues)"
      else if delta < -0.1 then
        first.top_answer ++ " weakening (" ++ pyFormatF0 (delta * 100) ++
          "% over " ++ toString analyses.length ++ " clues)"
      else
        first.top_answer ++ " holding steady across " ++
          toString analyses.length ++ " clues"
    else
      "Shifted from " ++ first.top_answer ++ " to " ++ last.top_answer
  | _, _ => ""

/-- The "DEEP ANALYSIS" lines of `generate_context_injection` (emitted when a
thinker insight exists for the previous clue). -/
def thinkerBlock (thinker_context : Option ThinkerContext)
    (current_clue_number : Int) : List String :=
  match thinker_context with
  | none => []
  | some tc =>
    match tc.get_prior_insight current_clue_number with
    | none => []
    | some pi =>
      ["=== DEEP ANALYSIS (from prior clue) ===",
       "Top Hypothesis: " ++ pi.top_guess ++ " (" ++ toString pi.confidence ++ "%)",
       "Reasoning: " ++ pyTake pi.hypothesis_reasoning 300]
      ++ (if pi.key_patterns.isEmpty then [] else
            ["Patterns: " ++ String.intercalate ", " (pi.key_patterns.take 3)])
      ++ (if pi.wordplay_analysis == "" then [] else
            ["Wordplay: " ++ pi.wordplay_analysis])
      ++ ["Narrative: " ++ pi.narrative_arc, ""]

/-- One agent-snapshot line of `generate_context_injection`. -/
def snapshotLine (snapshot : AgentSnapshot) : String :=
  let conf_pct := pyTrunc (snapshot.confidence * 100)
  let insight_clean := pyTake (pyReplaceChar snapshot.insight '\"' '\x27') 40
  "  " ++ snapshot.agent_name ++ ": " ++ snapshot.answer ++ " (" ++
    toString conf_pct ++ "%) - \"" ++ insight_clean ++ "\""

/-- The per-`ClueAnalysis` lines of `generate_context_injection`. -/
def analysisBlock (full_predictions : Bool) (analysis : ClueAnalysis) :
    List String :=
  ["=== CLUE " ++ toString analysis.clue_number ++ ": \"" ++
     analysis.clue_text ++ "\" ==="]
  ++ (if full_predictions then analysis.agent_snapshots.map snapshotLine else [])
  ++ ["  >> VOTE: " ++ analysis.top_answer ++ " (" ++
        toString analysis.top_agents.length ++ "/5 agree, " ++
        analysis.agreement_strength ++ ") " ++
        formatTrend analysis.confidence_delta]
  ++ (match analysis.oracle_synthesis with
      | none => []
      | some oracle =>
        match oracle.top_3 with
        | [] => []
        | top_guess :: _ =>
          ["  >> ORACLE: " ++ top_guess.answer ++ " (" ++
             toString top_guess.confidence ++ "%) - \"" ++ oracle.key_theme ++ "\""])
  ++ [""]

/-- `ReasoningAccumulator.generate_context_injection`: the deterministic
context string injected into later turns' prompts. -/
def generate_context_injection (analyses : List ClueAnalysis)
    (current_clue_number : Int) (full_predictions : Bool)
    (thinker_context : Option ThinkerContext) : String :=
  let lines := thinkerBlock thinker_context current_clue_number
  if analyses.isEmpty then String.intercalate "\n" lines
  else
    let lines := lines ++ ["PRIOR ANALYSIS:", ""]
      ++ (analyses.map (analysisBlock full_predictions)).flatten
      ++ (if analyses.length ≥ 2 then
            ["[TREND: " ++ summarizeEvolution analyses ++ "]", ""]
          else [])
    String.intercalate "\n" lines

/-! ## `reasoning_accumulator.py` — `update_hypothesis_tracker` -/

/-- The `if key not in tracker: tracker[key] = []` plus
`tracker[key].append(value)` update of `update_hypothesis_tracker`. -/
def trackerAppend (tracker : List (String × List ℚ)) (key : String)
    (value : ℚ) : List (String × List ℚ) :=
  assocAppend tracker key value

/-- `ReasoningAccumulator.update_hypothesis_tracker`: append the top answer's
confidence under `top_answer.lower()`, and — when `alt_answer` and
`alt_confidence` are both truthy (non-`None`, non-empty, non-zero) — the
alternative's confidence under `alt_answer.lower()`. -/
def update_hypothesis_tracker (tracker : List (String × List ℚ))
    (analysis : ClueAnalysis) : List (String × List ℚ) :=
  let tracker := trackerAppend tracker (pyLower analysis.top_answer)
    analysis.top_confidence
  match analysis.alt_answer, analysis.alt_confidence with
  | some alt_answer, some alt_confidence =>
    if alt_answer ≠ "" ∧ alt_confidence ≠ 0 then
      trackerAppend tracker (pyLower alt_answer) alt_confidence
    else tracker
  | _, _ => tracker

/-! ## `orchestrator.py` — `_run_agent` and `predict` -/

/-- Outcome of one specialist's `agent.predict` call as seen by
`_run_agent`: a parsed prediction, an `asyncio.TimeoutError`, or any other
exception (provider/transport/parse errors never escape `agent.predict`,
but `_run_agent` catches `Exception` regardless). -/
inductive AgentOutcome where
  | success (prediction : AgentPrediction)
  | timeout
  | failure
deriving Repr, DecidableEq

/-- `AgentOrchestrator._run_agent`: every timeout or exception is converted
into `(agent_name, None)`; nothing propagates. -/
def runAgent (agent_name : String) (outcome : AgentOutcome) :
    String × Option AgentPrediction :=
  match outcome with
  | .success prediction => (agent_name, some prediction)
  | .timeout => (agent_name, none)
  | .failure => (agent_name, none)

/-- The five specialists, in the insertion order of
`AgentOrchestrator._init_agents`. -/
def agentNames : List String :=
  ["lateral", "wordsmith", "popculture", "literal", "wildcard"]

/-- `orchestrator.OrchestratorResult` (dataclass). -/
structure OrchestratorResult where
  predictions : List (String × AgentPrediction)
  voting : VotingResult
  should_guess : Bool
  guess_rationale : String
  total_latency_ms : ℚ
  agents_responded : Nat
  agents_failed : List String
  oracle_synthesis : Option OracleSynthesis := none
deriving Repr, DecidableEq

/-- `AgentOrchestrator.predict`: run the five specialists (their call
outcomes are the `outcomes` argument), collect successes and failures, vote,
decide guess-now, and attach the Oracle task's result (already reduced to
`Option` by its local `except` handlers).  The result is `none` exactly when
an exception escapes (only possible from `should_guess`). -/
def orchestratorPredict (outcomes : String → AgentOutcome) (clue_number : Nat)
    (oracle_synthesis : Option OracleSynthesis) (total_latency_ms : ℚ) :
    Option OrchestratorResult :=
  let results := agentNames.map (fun name => runAgent name (outcomes name))
  let predictions := results.filterMap (fun r => r.2.map (fun p => (r.1, p)))
  let failed_agents := results.filterMap
    (fun r => if r.2.isNone then some r.1 else none)
  let voting_result := vote (predictions.map (fun kv => (kv.1, some kv.2)))
    clue_number
  match should_guess voting_result clue_number with
  | none => none
  | some (sg, rationale) =>
    some { predictions := predictions
           voting := voting_result
           should_guess := sg
           guess_rationale := rationale
           total_latency_ms := total_latency_ms
           agents_responded := predictions.length
           agents_failed := failed_agents
           oracle_synthesis := oracle_synthesis }

/-! ## `oracle_agent.py` — `OracleAgent._parse_response`

The Oracle's response text is `json.loads`-ed and converted to an
`OracleSynthesis`.  `PyJson` models the result of a *successful*
`json.loads`; dynamic errors inside the conversion (attribute/type errors,
and in particular the `TypeError` raised by calling the `OracleSynthesis`
dataclass constructor with the unexpected keyword `misdirection_detected`)
are caught by the surrounding `except` and yield `None`. -/

/-- A Python value produced by `json.loads`. -/
inductive PyJson where
  | null
  | bool (b : Bool)
  | num (q : ℚ)
  | str (s : String)
  | arr (elems : List PyJson)
  | obj (fields : List (String × PyJson))

/-- Python `data.get(key, default)`: `none` models the `AttributeError`
raised when `data` is not a dict. -/
def pyJsonGet (data : PyJson) (key : String) (default : PyJson) :
    Option PyJson :=
  match data with
  | .obj fields => some ((dictGet fields key).getD default)
  | _ => none

/-- Python `int(s)` for a string: strip, optional sign, decimal digits. -/
def pyStrToInt (s : String) : Option Int :=
  match (pyStrip s).toList with
  | '-' :: ds =>
    if !ds.isEmpty && ds.all Char.isDigit then some (-(digitsToNat ds : Int))
    else none
  | '+' :: ds =>
    if !ds.isEmpty && ds.all Char.isDigit then some (digitsToNat ds : Int)
    else none
  | ds =>
    if !ds.isEmpty && ds.all Char.isDigit then some (digitsToNat ds : Int)
    else none

/-- Python `int(x)` on a JSON value (`none` models the raised error). -/
def pyToInt : PyJson → Option Int
  | .num q => some (pyTrunc q)
  | .bool b => some (if b then 1 else 0)
  | .str s => pyStrToInt s
  | _ => none

/-- Extract a Python `str` (string operations on any other value are
modelled as a raised error). -/
def pyToStr : PyJson → Option String
  | .str s => some s
  | _ => none

/-- One iteration of the `for guess in data.get("top_3", [])[:3]` loop. -/
def parseOracleGuess (guess : PyJson) : Option OracleGuess := do
  let answer ← pyToStr (← pyJsonGet guess "answer" (.str "Unknown"))
  let confidence ← pyToInt (← pyJsonGet guess "confidence" (.num 50))
  let explanation ← pyToStr (← pyJsonGet guess "explanation" (.str ""))
  some { answer := answer, confidence := confidence,
         explanation := pyTake explanation 150 }

/-- `data.get("top_3", [])[:3]`: the value must be a list to be iterated and
sliced. -/
def getTop3 (data : PyJson) : Option (List PyJson) :=
  match pyJsonGet data "top_3" (.arr []) with
  | some (.arr elems) => some (elems.take 3)
  | _ => none

/-- The field names of the `OracleSynthesis` dataclass declared in
`reasoning_accumulator.py` (the generated `__init__`'s keyword set). -/
def oracleSynthesisFields : List String :=
  ["top_3", "key_theme", "blind_spot", "latency_ms"]

/-- The keyword arguments `OracleAgent._parse_response` passes to the
`OracleSynthesis` constructor. -/
def oracleParseKwargs : List String :=
  ["top_3", "key_theme", "blind_spot", "latency_ms", "misdirection_detected"]

/-- `OracleAgent._parse_response` after a successful `json.loads`: build the
guess list (at most 3), fail on an empty list, then call the
`OracleSynthesis` constructor.  That call passes the keyword
`misdirection_detected`, which is not a field of the dataclass, so it raises
`TypeError`; the surrounding `except Exception` turns this into `None`. -/
def oracleParseResponse (data : PyJson) : Option OracleSynthesis := do
  let top3raw ← getTop3 data
  let top_3 ← top3raw.mapM parseOracleGuess
  if top_3.isEmpty then none
  else
    let key_theme ← pyToStr (← pyJsonGet data "key_theme" (.str "Analysis pending"))
    let blind_spot ← pyToStr (← pyJsonGet data "blind_spot" (.str "None identified"))
    let misdirection ← pyToStr (← pyJsonGet data "misdirection_detected" (.str ""))
    let _ := pyTake misdirection 150
    if oracleParseKwargs.all (fun k => oracleSynthesisFields.contains k) then
      some { top_3 := top_3, key_theme := pyTake key_theme 100,
             blind_spot := pyTake blind_spot 100, latency_ms := 0.0 }
    else none

/-! ## `routes.py` — session state, clue submission, thinker merge -/

/-- `routes.SessionState` (dataclass); `created_at` is a wall-clock
timestamp. -/
structure SessionState where
  clues : List String := []
  created_at : ℚ := 0.0
  last_prediction : Option String := none
  clue_analyses : List ClueAnalysis := []
  hypothesis_tracker : List (String × List ℚ) := []
  thinker_context : ThinkerContext := {}
deriving Repr, DecidableEq

/-- `ReasoningAccumulator.create_clue_analysis`: the durable record built
from the turn's predictions and voting result (`now` is the
`time.time()` reading stored in `analyzed_at`; the Oracle synthesis is
attached by the caller afterwards). -/
def create_clue_analysis (clue_number : Int) (clue_text : String)
    (predictions : List (String × Option AgentPrediction))
    (voting_result : VotingResult) (prior_analyses : List ClueAnalysis)
    (now : ℚ) : ClueAnalysis :=
  let top := voting_result.vote_breakdown.head?
  let alt := (voting_result.vote_breakdown.drop 1).head?
  let prior_top_conf := match prior_analyses.getLast? with
    | some a => a.top_confidence
    | none => 0.0
  let current_conf := match top with
    | some t => t.avg_confidence
    | none => 0.0
  let delta := current_conf - prior_top_conf
  let snapshots := predictions.filterMap (fun kv => kv.2.map (fun pred =>
    { agent_name := kv.1, answer := pred.answer, confidence := pred.confidence,
      insight := if pred.reasoning ≠ "" then pyTake pred.reasoning 50 else "" }))
  { clue_number := clue_number
    clue_text := clue_text
    top_answer := match top with | some t => t.answer | none => "Unknown"
    top_confidence := current_conf
    top_agents := (top.map (·.agents)).getD []
    alt_answer := alt.map (·.answer)
    alt_confidence := alt.map (·.avg_confidence)
    alt_agents := (alt.map (·.agents)).getD []
    confidence_delta := delta
    agent_snapshots := snapshots
    agreement_strength := voting_result.agreement_strength
    oracle_synthesis := none
    analyzed_at := now }

/-! ## `routes.py` / `api/models.py` — the `predict` route

`ClueRequest`, `AgentPrediction` (imported in `routes.py` as
`APIAgentPrediction`), `GuessRecommendation` and `PredictionResponse` are
pydantic models; constructing one with a field outside its declared bounds
raises a `ValidationError`.  `predictRoute` models the body of the
`predict` route: the `try` block appends the clue, derives the turn
number, calls the orchestrator, converts the result, and builds the
response; any exception — the orchestrator call raising, or a pydantic
`ValidationError` — is caught by the route's `except`, which answers the
caller with an explicit HTTP 500 (`none` here).  The mutations already
performed on the stored session (the appended clue, `last_prediction`) are
not rolled back.

The orchestrator call's outcome is the `callOutcome` argument (`none`
models the call raising).  On this exact source snapshot the call as
written always raises — `routes.py` reads `request.theme`, a field
`ClueRequest` does not declare, and passes `theme`/`session_id`/
`thinker_context` keywords that `AgentOrchestrator.predict` does not
accept — so the theorems below quantify over both outcomes and hold
regardless of that version skew.  Of the response models' fields we carry
the ones the route computes from this turn; the elided optional/legacy
fields (`voting`, `oracle`, the deprecated prediction lists,
`category_probabilities`) only add further ways to raise, which `none`
already covers — no theorem below claims a response is successfully
built. -/

/-- `api/models.ClueRequest`: the clue text plus an optional session id
(there is no `theme` field). -/
structure ClueRequest where
  clue_text : String
  session_id : Option String := none
deriving Repr, DecidableEq

/-- `api/models.AgentPrediction` (the API model `routes.py` imports as
`APIAgentPrediction`): `confidence` is declared `ge=0.0, le=1.0`. -/
structure APIAgentPrediction where
  answer : String
  confidence : ℚ
  reasoning : String
deriving Repr, DecidableEq

/-- Constructing an `APIAgentPrediction` validates the `confidence`
bounds; violation raises `ValidationError` (`none`). -/
def mkAPIAgentPrediction (answer : String) (confidence : ℚ)
    (reasoning : String) : Option APIAgentPrediction :=
  if 0 ≤ confidence ∧ confidence ≤ 1 then
    some { answer := answer, confidence := confidence, reasoning := reasoning }
  else none

/-- `api/models.GuessRecommendation` (no field bounds declared). -/
structure GuessRecommendation where
  should_guess : Bool
  confidence_threshold : ℚ
  rationale : String
deriving Repr, DecidableEq

/-- `api/models.PredictionResponse` (the fields the route computes for
this turn): `clue_number` is declared `ge=1, le=5`. -/
structure PredictionResponse where
  session_id : String
  clue_number : Nat
  agents : List (String × APIAgentPrediction)
  recommended_pick : String
  key_insight : String
  agreement_strength : String
  agents_responded : Nat
  agreements : List String
  guess_recommendation : GuessRecommendation
  elapsed_time : ℚ
  clue_history : List String
deriving Repr, DecidableEq

/-- Constructing a `PredictionResponse` validates `clue_number` against
its `ge=1, le=5` bounds; violation raises `ValidationError` (`none`).
The agent entries were each validated at their own construction. -/
def mkPredictionResponse (session_id : String) (clue_number : Nat)
    (agents : List (String × APIAgentPrediction)) (recommended_pick : String)
    (key_insight : String) (agreement_strength : String)
    (agents_responded : Nat) (agreements : List String)
    (guess_recommendation : GuessRecommendation) (elapsed_time : ℚ)
    (clue_history : List String) : Option PredictionResponse :=
  if 1 ≤ clue_number ∧ clue_number ≤ 5 then
    some { session_id := session_id, clue_number := clue_number,
           agents := agents, recommended_pick := recommended_pick,
           key_insight := key_insight, agreement_strength := agreement_strength,
           agents_responded := agents_responded, agreements := agreements,
           guess_recommendation := guess_recommendation,
           elapsed_time := elapsed_time, clue_history := clue_history }
  else none

/-- The route's own `thresholds = {1: 0.90, 2: 0.85, 3: 0.75, 4: 0.65,
5: 0.50}` table (used only for the displayed `confidence_threshold`). -/
def routeGuessThresholds : List (Nat × ℚ) :=
  [(1, 0.90), (2, 0.85), (3, 0.75), (4, 0.65), (5, 0.50)]

/-- The body of the `predict` route (see the section comment): returns the
stored session's new state together with `some response` on success, or
`none` when the `except` handler answers with an HTTP 500.  Note there is
no turn-cap check of its own: the clue is appended and the pipeline
attempted at any turn number; for a turn number over 5 the
`PredictionResponse` construction is what fails. -/
def predictRoute (session_id : String) (session_state : SessionState)
    (request : ClueRequest)
    (callOutcome : Nat → Option String → Option OrchestratorResult)
    (elapsed : ℚ) (now : ℚ) : SessionState × Option PredictionResponse :=
  let clues := session_state.clues ++ [request.clue_text]
  let clue_number := clues.length
  let s1 : SessionState := { session_state with clues := clues }
  let prior_context :=
    if ¬s1.clue_analyses.isEmpty ∨ ¬s1.thinker_context.insights.isEmpty then
      some (generate_context_injection s1.clue_analyses clue_number true
        (some s1.thinker_context))
    else none
  match callOutcome clue_number prior_context with
  | none => (s1, none)
  | some result =>
    match result.predictions.mapM (fun kv =>
        (mkAPIAgentPrediction kv.2.answer kv.2.confidence kv.2.reasoning).map
          (fun p => (kv.1, p))) with
    | none => (s1, none)
    | some agent_preds =>
      let threshold := (dictGetNat routeGuessThresholds clue_number).getD 0.75
      let guess_rec : GuessRecommendation :=
        { should_guess := result.should_guess,
          confidence_threshold := threshold,
          rationale := result.guess_rationale }
      let s2 : SessionState :=
        { s1 with last_prediction := some result.voting.recommended_pick }
      let agreements := match result.voting.vote_breakdown with
        | [] => []
        | top :: _ => top.agents
      match mkPredictionResponse session_id clue_number agent_preds
          result.voting.recommended_pick result.voting.key_insight
          result.voting.agreement_strength result.agents_responded agreements
          guess_rec elapsed clues with
      | none => (s2, none)
      | some response =>
        let clue_analysis := create_clue_analysis clue_number request.clue_text
          (result.predictions.map (fun kv => (kv.1, some kv.2)))
          result.voting s2.clue_analyses now
        let clue_analysis := match result.oracle_synthesis with
          | some o => { clue_analysis with oracle_synthesis := some o }
          | none => clue_analysis
        let s3 : SessionState :=
          { s2 with
            clue_analyses := s2.clue_analyses ++ [clue_analysis]
            hypothesis_tracker :=
              update_hypothesis_tracker s2.hypothesis_tracker clue_analysis }
        (s3, some response)

/-- The thinker-insight merge in the `get_thinker_status` route: if the
session's `ThinkerContext` already has an insight for this clue number, do
nothing; otherwise append the retrieved insight (`now` is the wall-clock
reading taken by `add_insight`). -/
def pollMergeInsight (tc : ThinkerContext) (clue_number : Int)
    (insight : ThinkerInsight) (now : ℚ) : ThinkerContext :=
  match tc.get_for_clue clue_number with
  | some _ => tc
  | none => tc.add_insight insight now
/-! ## Derived definitions, spec-modelled definitions and example inputs -/

def c1Predictions : List (String × Option AgentPrediction) :=
  [("lateral", some ⟨"Bowling", 0.85, "strike and gutter terms", "lateral", 0⟩),
   ("wordsmith", some ⟨"Bowling", 0.80, "pin wordplay", "wordsmith", 0⟩),
   ("popculture", some ⟨"Squid Game", 0.60, "netflix series", "popculture", 0⟩),
   ("literal", some ⟨"Life", 0.40, "face value reading", "literal", 0⟩),
   ("wildcard", some ⟨"Roulette", 0.55, "creative leap", "wildcard", 0⟩)]

/-- Number of insights recorded for clue `n`. -/
def countInsightsFor (tc : ThinkerContext) (n : Int) : Nat :=
  (tc.insights.filter (fun i => i.clue_number == n)).length

def c5Insight : ThinkerInsight :=
  { clue_number := 2, top_guess := "Bowling", confidence := 80,
    hypothesis_reasoning := "strike and gutter analysis", key_patterns := ["sports"],
    refined_guesses := [], narrative_arc := "game night", wordplay_analysis := "",
    latency_ms := 0, completed := true }

def c6OracleJson : PyJson :=
  .obj [("top_3", .arr [.obj [("answer", .str "Monopoly"), ("confidence", .num 92),
          ("explanation", .str "business plus dice wordplay")]]),
        ("misdirection_detected", .str "corporate trap"),
        ("key_theme", .str "board games"),
        ("blind_spot", .str "dicey wordplay")]

def c8Content : String := "ANSWER: Bowling\nCONFIDENCE: 85\nREASONING: strike terms"

def c8Parsed : AgentPrediction :=
  { answer := "Bowling", confidence := 0.85, reasoning := "strike terms",
    agent_name := "lateral", latency_ms := 0 }

/-- The ordinal agreement scale of the spec: none < weak < moderate < strong. -/
def specAgreementRank : String → Nat
  | "weak" => 1
  | "moderate" => 2
  | "strong" => 3
  | _ => 0

def c3ExampleVR : VotingResult :=
  { recommended_pick := "Bowling", recommended_confidence := 0.825,
    key_insight := "strike and gutter terms", agreement_strength := "moderate",
    vote_breakdown := [{ answer := "Bowling", total_votes := 2.145,
                         agents := ["lateral", "wordsmith"],
                         avg_confidence := 0.825 }] }

/-- Did this call outcome leave the agent without a prediction? -/
def outcomeFailed : AgentOutcome → Bool
  | .success _ => false
  | .timeout => true
  | .failure => true

/-- Modelled from the spec claim for C4: a normalization that strips at most
ONE leading article (the claim's words; to be compared with the source's
`normalize_answer`). -/
def normalizeSingleArticle (answer : String) : String :=
  let n := (pyStrip (pyLower answer)).toList
  String.mk
    (if "the ".toList.isPrefixOf n then n.drop 4
     else if "a ".toList.isPrefixOf n then n.drop 2
     else if "an ".toList.isPrefixOf n then n.drop 3
     else n)

def c4Predictions : List (String × Option AgentPrediction) :=
  [("lateral", some ⟨" The Bowling ", 0.85, "terms", "lateral", 0⟩),
   ("wordsmith", some ⟨"bowling", 0.80, "puns", "wordsmith", 0⟩)]

def c7Analysis : ClueAnalysis :=
  { clue_number := 2, clue_text := "clue", top_answer := "The Bowling",
    top_confidence := 0.8, top_agents := ["lateral"],
    alt_answer := some "A Dice", alt_confidence := some 0,
    alt_agents := ["literal"], confidence_delta := 0, agent_snapshots := [],
    agreement_strength := "weak" }

def c7TrackerEx : List (String × List ℚ) := [("prior pick", [0.5])]

def c7AnalysisAlt : ClueAnalysis :=
  { clue_number := 3, clue_text := "clue", top_answer := "The Bowling",
    top_confidence := 0.8, top_agents := ["lateral", "wordsmith"],
    alt_answer := some "A Dice", alt_confidence := some 0.3,
    alt_agents := ["literal"], confidence_delta := 0.1, agent_snapshots := [],
    agreement_strength := "moderate" }

/-- Forget the wall-clock field of a `ClueAnalysis`. -/
def scrubAnalysis (analysis : ClueAnalysis) : ClueAnalysis :=
  { analysis with analyzed_at := 0 }

/-- Forget the wall-clock field of a `ThinkerContext`. -/
def scrubThinkerContext (tc : ThinkerContext) : ThinkerContext :=
  { tc with last_updated := 0 }

def c9Insight : ThinkerInsight :=
  { clue_number := 1, top_guess := "Bowling", confidence := 70,
    hypothesis_reasoning := "sports terms throughout", key_patterns := ["sports"],
    refined_guesses := [], narrative_arc := "a game night",
    wordplay_analysis := "strike", latency_ms := 5, completed := true }

def c9Analysis (ts : ℚ) : ClueAnalysis :=
  { clue_number := 1, clue_text := "first clue", top_answer := "Bowling",
    top_confidence := 0.8, top_agents := ["lateral"], alt_answer := none,
    alt_confidence := none, alt_agents := [], confidence_delta := 0.8,
    agent_snapshots := [⟨"lateral", "Bowling", 0.8, "terms"⟩],
    agreement_strength := "weak", oracle_synthesis := none, analyzed_at := ts }

def c10Session5 : SessionState := { clues := ["c1", "c2", "c3", "c4", "c5"] }

def c10Request : ClueRequest := { clue_text := "c6" }

def c10Result : OrchestratorResult :=
  { predictions := [("lateral", ⟨"Bowling", 0.85, "strike terms", "lateral", 0⟩)]
    voting := { recommended_pick := "Bowling", recommended_confidence := 0.85,
                key_insight := "strike terms", agreement_strength := "weak",
                vote_breakdown := [{ answer := "Bowling", total_votes := 0.85,
                                     agents := ["lateral"],
                                     avg_confidence := 0.85 }] }
    should_guess := false
    guess_rationale := "Confidence 85% - wait for more clues"
    total_latency_ms := 0
    agents_responded := 1
    agents_failed := ["wordsmith", "popculture", "literal", "wildcard"]
    oracle_synthesis := none }

/-! ## Theorems -/

unseal Rat.add Rat.mul Rat.sub Rat.inv Rat.ofScientific in
/-- **C1**: the concrete turn-2 scenario — winning cluster {lateral,
wordsmith} on "Bowling", weighted total 1.3·0.85 + 1.3·0.80 = 2.145,
agreement "moderate", recommendation "Bowling" at the unweighted mean
confidence (0.85 + 0.80)/2 = 0.825. -/
theorem C1_turn2_bowling_scenario :
    (vote c1Predictions 2).recommended_pick = "Bowling" ∧
    (vote c1Predictions 2).recommended_confidence = (0.85 + 0.80) / 2 ∧
    ((0.85 + 0.80) / 2 : ℚ) = 0.825 ∧
    (vote c1Predictions 2).agreement_strength = "moderate" ∧
    ((vote c1Predictions 2).vote_breakdown.head?.map (·.answer)) = some "Bowling" ∧
    ((vote c1Predictions 2).vote_breakdown.head?.map (·.agents)) =
      some ["lateral", "wordsmith"] ∧
    ((vote c1Predictions 2).vote_breakdown.head?.map (·.total_votes)) =
      some (1.3 * 0.85 + 1.3 * 0.80) ∧
    (1.3 * 0.85 + 1.3 * 0.80 : ℚ) = 2.145 := by decide

theorem pollMerge_of_none (tc : ThinkerContext) (n : Int) (ins : ThinkerInsight)
    (now : ℚ) (h : countInsightsFor tc n = 0) :
    pollMergeInsight tc n ins now = tc.add_insight ins now := by
  have hfil : tc.insights.filter (fun i => i.clue_number == n) = [] :=
    List.length_eq_zero.mp h
  have hf : tc.insights.find? (fun i => i.clue_number == n) = none := by
    rw [List.find?_eq_none]
    intro x hx
    by_contra hpx
    have : x ∈ tc.insights.filter (fun i => i.clue_number == n) :=
      List.mem_filter.mpr ⟨hx, by simpa using hpx⟩
    simp [hfil] at this
  simp [pollMergeInsight, ThinkerContext.get_for_clue, hf]

theorem pollMerge_of_present (tc : ThinkerContext) (n : Int) (ins : ThinkerInsight)
    (now : ℚ) (h : countInsightsFor tc n = 1) :
    pollMergeInsight tc n ins now = tc := by
  have hne : tc.insights.filter (fun i => i.clue_number == n) ≠ [] := by
    intro hnil
    have : countInsightsFor tc n = 0 := by
      show (tc.insights.filter (fun i => i.clue_number == n)).length = 0
      rw [hnil]
      rfl
    omega
  obtain ⟨x, hx⟩ := List.exists_mem_of_ne_nil _ hne
  have hx' := List.mem_filter.mp hx
  have hs : (tc.insights.find? (fun i => i.clue_number == n)).isSome := by
    rw [List.find?_isSome]
    exact ⟨x, hx'.1, hx'.2⟩
  obtain ⟨y, hy⟩ := Option.isSome_iff_exists.mp hs
  simp [pollMergeInsight, ThinkerContext.get_for_clue, hy]

/-- **C5**: a completed Thinker insight for turn `n` is merged into the
session's `ThinkerContext` at most once per turn number: starting from a
context with no entry for `n`, any sequence of status polls retrieving the
same insight leaves exactly one entry for `n`, and a poll for an
already-recorded turn is a literal no-op. -/
theorem C5_thinker_merge_idempotent (tc : ThinkerContext) (n : Int)
    (ins : ThinkerInsight) (now0 : ℚ) (nows : List ℚ)
    (hn : ins.clue_number = n) (h0 : countInsightsFor tc n = 0) :
    countInsightsFor
      (nows.foldl (fun c t => pollMergeInsight c n ins t)
        (pollMergeInsight tc n ins now0)) n = 1 ∧
    (∀ t', pollMergeInsight (pollMergeInsight tc n ins now0) n ins t' =
      pollMergeInsight tc n ins now0) := by
  have hfil : tc.insights.filter (fun i => i.clue_number == n) = [] :=
    List.length_eq_zero.mp h0
  have h1 : countInsightsFor (pollMergeInsight tc n ins now0) n = 1 := by
    rw [pollMerge_of_none tc n ins now0 h0]
    show (((tc.insights ++ [ins]).filter (fun i => i.clue_number == n))).length = 1
    rw [List.filter_append, hfil]
    simp [hn]
  constructor
  · have key : ∀ (l : List ℚ) (c : ThinkerContext), countInsightsFor c n = 1 →
        countInsightsFor (l.foldl (fun c t => pollMergeInsight c n ins t) c) n = 1 := by
      intro l
      induction l with
      | nil => intro c hc; simpa using hc
      | cons t ts ih =>
        intro c hc
        simp only [List.foldl_cons]
        rw [pollMerge_of_present c n ins t hc]
        exact ih c hc
    exact key nows _ h1
  · intro t'
    exact pollMerge_of_present _ n ins t' h1

/-- **C5 witness**. -/
theorem C5_witness :
    countInsightsFor
      (([2, 3] : List ℚ).foldl (fun c t => pollMergeInsight c 2 c5Insight t)
        (pollMergeInsight {} 2 c5Insight 1)) 2 = 1 :=
  (C5_thinker_merge_idempotent {} 2 c5Insight 1 [2, 3] rfl rfl).1

theorem optBind_none {α β : Type} (o : Option α) (f : α → Option β)
    (h : ∀ a, f a = none) : (o >>= f) = none := by
  cases o <;> simp [h]

/-- The `OracleSynthesis` constructor call in `_parse_response` always
raises `TypeError` (unexpected keyword `misdirection_detected`), so every
Oracle response — valid or not — is dropped. -/
theorem oracleParse_always_none (data : PyJson) : oracleParseResponse data = none := by
  unfold oracleParseResponse
  apply optBind_none
  intro top3raw
  apply optBind_none
  intro top_3
  by_cases he : top_3.isEmpty
  · simp [he]
  · rw [if_neg he]
    apply optBind_none
    intro kt
    apply optBind_none
    intro key_theme
    apply optBind_none
    intro bs
    apply optBind_none
    intro blind_spot
    apply optBind_none
    intro mj
    apply optBind_none
    intro misdirection
    rfl

unseal Rat.add Rat.mul Rat.sub Rat.inv Rat.ofScientific in
/-- **C6** (code bug): an Oracle response that is valid JSON with a
non-empty `top_3` — whose guesses even parse individually — still yields an
absent result, because the `OracleSynthesis` dataclass lacks the
`misdirection_detected` field the constructor call passes; the claim's
"valid JSON with non-empty top_3 yields a 1–3-guess synthesis" fails on
every input. -/
theorem C6_oracle_parse_drops_valid_response :
    (getTop3 c6OracleJson).map List.length = some 1 ∧
    ((getTop3 c6OracleJson).bind (fun l => l.mapM parseOracleGuess)) =
      some [{ answer := "Monopoly", confidence := 92,
              explanation := "business plus dice wordplay" }] ∧
    oracleParseResponse c6OracleJson = none ∧
    (oracleSynthesisFields.contains "misdirection_detected") = false := by
  refine ⟨by decide, by decide, oracleParse_always_none c6OracleJson, by decide⟩

theorem pyTake_length_le (s : String) (n : Nat) : (pyTake s n).length ≤ n := by
  have h : (pyTake s n).length = (s.toList.take n).length := rfl
  rw [h, List.length_take]
  exact min_le_left _ _

unseal Rat.add Rat.mul Rat.sub Rat.inv Rat.ofScientific in
/-- **C8 counterexample**: a response with an ANSWER line but no
CONFIDENCE line does not fail to parse — `parse_response` succeeds with the
default confidence 0.5, contradicting the claim that a missing confidence
line is a `ParseError`. -/
theorem C8_counterexample :
    searchTagNumber "confidence:".toList
      ("ANSWER: Bowling\nREASONING: strikes").toList = none ∧
    parse_response "lateral" "ANSWER: Bowling\nREASONING: strikes" =
      some { answer := "Bowling", confidence := 0.5, reasoning := "strikes",
             agent_name := "lateral", latency_ms := 0 } := by decide

/-- **C8 amended**: specialist parsing fails exactly when the raw text has
no ANSWER line; a missing CONFIDENCE line defaults to 0.5 instead of
failing; on every successful parse the confidence lies in `[0, 1]` and the
reasoning string has at most 50 characters. -/
theorem C8_parse_response_amended (AGENT_NAME content : String) :
    ((parse_response AGENT_NAME content).isSome ↔
      (searchTagCapture "answer:".toList content.toList).isSome) ∧
    (∀ p, parse_response AGENT_NAME content = some p →
      0 ≤ p.confidence ∧ p.confidence ≤ 1 ∧ p.reasoning.length ≤ 50) := by
  constructor
  · unfold parse_response
    cases h : searchTagCapture "answer:".toList content.toList <;> simp [h]
  · intro p hp
    unfold parse_response at hp
    cases h : searchTagCapture "answer:".toList content.toList
    · rw [h] at hp
      exact absurd hp (by simp)
    · rw [h] at hp
      have hpfields := Option.some.inj hp
      have h00 : (0.0 : ℚ) = 0 := by norm_num
      have h10 : (1.0 : ℚ) = 1 := by norm_num
      refine ⟨?_, ?_, ?_⟩
      · rw [← hpfields]
        show (0 : ℚ) ≤ max 0.0 _
        rw [h00]
        exact le_max_left _ _
      · rw [← hpfields]
        show max (0.0 : ℚ) _ ≤ 1
        rw [h00]
        exact max_le (by norm_num) (by rw [← h10]; exact min_le_left _ _)
      · rw [← hpfields]
        show (match searchTagCapture "reasoning:".toList content.toList with
          | some cap2 => pyTake (pyStrip (String.mk cap2)) 50
          | none => "No reasoning").length ≤ 50
        cases hr : searchTagCapture "reasoning:".toList content.toList
        · simp only [hr]
          decide
        · simp only [hr]
          exact pyTake_length_le _ _

unseal Rat.add Rat.mul Rat.sub Rat.inv Rat.ofScientific in
/-- **C8 witness**. -/
theorem C8_witness :
    ((parse_response "lateral" c8Content).isSome ↔
      (searchTagCapture "answer:".toList c8Content.toList).isSome) ∧
    (0 ≤ c8Parsed.confidence ∧ c8Parsed.confidence ≤ 1 ∧
      c8Parsed.reasoning.length ≤ 50) :=
  ⟨(C8_parse_response_amended "lateral" c8Content).1,
   (C8_parse_response_amended "lateral" c8Content).2 c8Parsed (by decide)⟩

theorem should_guess_iff_aux (vr : VotingResult) (n : Nat) (hn5 : n ≠ 5)
    (mc : ℚ) (ma : String)
    (ht : (dictGetNat guessThresholds n).getD (0.75, "moderate") = (mc, ma))
    (hma : ma ∈ ["none", "weak", "moderate", "strong"])
    (ha : vr.agreement_strength ∈ ["none", "weak", "moderate", "strong"]) :
    ((should_guess vr n).map Prod.fst = some true ↔
      mc ≤ vr.recommended_confidence ∧
        specAgreementRank ma ≤ specAgreementRank vr.agreement_strength) := by
  have hbeq : (n == 5) = false := by simpa using hn5
  by_cases hc : vr.recommended_confidence < mc
  · simp only [should_guess, ht, hbeq, Bool.false_eq_true, if_false, if_pos hc]
    simp
    intro hle
    exact absurd hc (not_lt.mpr hle)
  · simp only [should_guess, ht, hbeq, Bool.false_eq_true, if_false, if_neg hc]
    have hle : mc ≤ vr.recommended_confidence := not_lt.mp hc
    simp only [List.mem_cons, List.not_mem_nil, or_false] at hma ha
    rcases ha with h | h | h | h <;> rcases hma with hm | hm | hm | hm <;>
      subst hm <;>
      simp [h, dictGet, agreement_order, List.find?, specAgreementRank, hle]

/-- **C3**: the guess-now decision is a function of
`(VotingResult, turn_number)` over the fixed threshold table: turn 5
returns `True` for every `VotingResult`; for turns 1–4 it returns `True`
iff `recommended_confidence` is at least the turn's minimum confidence and
the agreement strength ranks at least the turn's required strength on the
ordinal scale none < weak < moderate < strong. -/
theorem C3_guess_now_decision :
    (∀ vr : VotingResult, (should_guess vr 5).map Prod.fst = some true) ∧
    (∀ (vr : VotingResult) (n : Nat), n ∈ ([1, 2, 3, 4] : List Nat) →
      vr.agreement_strength ∈ ["none", "weak", "moderate", "strong"] →
      ((should_guess vr n).map Prod.fst = some true ↔
        ((dictGetNat guessThresholds n).getD (0.75, "moderate")).1 ≤
            vr.recommended_confidence ∧
          specAgreementRank
              ((dictGetNat guessThresholds n).getD (0.75, "moderate")).2 ≤
            specAgreementRank vr.agreement_strength)) := by
  constructor
  · intro vr
    rfl
  · intro vr n hn ha
    simp only [List.mem_cons, List.not_mem_nil, or_false] at hn
    rcases hn with rfl | rfl | rfl | rfl
    · exact should_guess_iff_aux vr 1 (by decide) 0.90 "strong" rfl (by decide) ha
    · exact should_guess_iff_aux vr 2 (by decide) 0.85 "strong" rfl (by decide) ha
    · exact should_guess_iff_aux vr 3 (by decide) 0.75 "moderate" rfl (by decide) ha
    · exact should_guess_iff_aux vr 4 (by decide) 0.65 "weak" rfl (by decide) ha

/-- **C3 witness**. -/
theorem C3_witness :
    ((should_guess c3ExampleVR 5).map Prod.fst = some true) ∧
    ((should_guess c3ExampleVR 3).map Prod.fst = some true ↔
      ((dictGetNat guessThresholds 3).getD (0.75, "moderate")).1 ≤
          c3ExampleVR.recommended_confidence ∧
        specAgreementRank
            ((dictGetNat guessThresholds 3).getD (0.75, "moderate")).2 ≤
          specAgreementRank c3ExampleVR.agreement_strength) :=
  ⟨C3_guess_now_decision.1 c3ExampleVR,
   C3_guess_now_decision.2 c3ExampleVR 3 (by decide) (by decide)⟩

theorem vote_agreement_mem (predictions : List (String × Option AgentPrediction))
    (clue_number : Nat) :
    (vote predictions clue_number).agreement_strength ∈
      ["none", "weak", "moderate", "strong"] := by
  unfold vote
  dsimp only
  split
  · decide
  · split
    · decide
    · dsimp only
      split
      · decide
      · split <;> decide

theorem guessThresholdAgreement_valid (n : Nat) :
    ((dictGetNat guessThresholds n).getD (0.75, "moderate")).2 ∈
      ["none", "weak", "moderate", "strong"] := by
  match n with
  | 0 | 1 | 2 | 3 | 4 | 5 => decide
  | (k + 6) =>
    have h : dictGetNat guessThresholds (k + 6) = none := rfl
    rw [h]
    decide

theorem should_guess_isSome (vr : VotingResult) (n : Nat)
    (ha : vr.agreement_strength ∈ ["none", "weak", "moderate", "strong"]) :
    (should_guess vr n).isSome := by
  by_cases h5 : (n == 5) = true
  · simp [should_guess, h5]
  · by_cases hc : vr.recommended_confidence <
        ((dictGetNat guessThresholds n).getD (0.75, "moderate")).1
    · simp [should_guess, h5, hc]
    · have hma := guessThresholdAgreement_valid n
      simp only [List.mem_cons, List.not_mem_nil, or_false] at ha hma
      rcases ha with h | h | h | h <;> rcases hma with hm | hm | hm | hm <;>
        simp [should_guess, h5, hc, h, hm, dictGet, agreement_order, List.find?]

theorem runAgent_failed_list (outcomes : String → AgentOutcome) (l : List String) :
    (l.map (fun name => runAgent name (outcomes name))).filterMap
      (fun r => if r.2.isNone then some r.1 else none) =
    l.filter (fun a => outcomeFailed (outcomes a)) := by
  induction l with
  | nil => rfl
  | cons a l ih =>
    simp only [runAgent] at ih
    cases h : outcomes a with
    | success p =>
      simp only [List.map_cons, List.filterMap_cons, List.filter_cons, h,
        runAgent, show outcomeFailed (AgentOutcome.success p) = false from rfl,
        Option.isNone_some, Bool.false_eq_true, if_false]
      exact ih
    | timeout =>
      simp only [List.map_cons, List.filterMap_cons, List.filter_cons, h,
        runAgent, show outcomeFailed AgentOutcome.timeout = true from rfl,
        Option.isNone_none, if_true]
      rw [ih]
    | failure =>
      simp only [List.map_cons, List.filterMap_cons, List.filter_cons, h,
        runAgent, show outcomeFailed AgentOutcome.failure = true from rfl,
        Option.isNone_none, if_true]
      rw [ih]

theorem runAgent_preds_list (outcomes : String → AgentOutcome) (l : List String) :
    (l.map (fun name => runAgent name (outcomes name))).filterMap
      (fun r => r.2.map (fun p => (r.1, p))) =
    l.filterMap (fun a => match outcomes a with
      | .success p => some (a, p)
      | _ => none) := by
  induction l with
  | nil => rfl
  | cons a l ih =>
    cases h : outcomes a <;>
      simp only [runAgent] at ih <;>
      simp only [List.map_cons, List.filterMap_cons, h, runAgent,
        Option.map_some', Option.map_none'] <;>
      rw [ih]

theorem runAgent_preds_length (outcomes : String → AgentOutcome) (l : List String) :
    (l.filterMap (fun a => match outcomes a with
      | .success p => some (a, p)
      | _ => none)).length =
    (l.filter (fun a => !outcomeFailed (outcomes a))).length := by
  induction l with
  | nil => rfl
  | cons a l ih =>
    cases h : outcomes a <;>
      simp [outcomeFailed, h, ih, List.filter_cons]

theorem orchestratorPredict_isSome (outcomes : String → AgentOutcome)
    (clue_number : Nat) (oracle_synthesis : Option OracleSynthesis)
    (total_latency_ms : ℚ) :
    (orchestratorPredict outcomes clue_number oracle_synthesis total_latency_ms).isSome := by
  obtain ⟨x, hx⟩ := Option.isSome_iff_exists.mp
    (should_guess_isSome _ clue_number (vote_agreement_mem _ clue_number))
  obtain ⟨sg, rationale⟩ := x
  unfold orchestratorPredict
  dsimp only
  rw [hx]
  rfl

/-- **C2**: for every assignment of call outcomes (success, timeout or
error) to the five specialists, the turn completes without raising: each
failed specialist is recorded in `agents_failed` without aborting the
others, and when all five fail the voting result degrades to the
`recommended_pick = "Unknown"`, `agreement_strength = "none"`,
confidence 0, empty-breakdown result with `agents_responded = 0`. -/
theorem C2_orchestrator_resilient (outcomes : String → AgentOutcome)
    (clue_number : Nat) (oracle_synthesis : Option OracleSynthesis)
    (total_latency_ms : ℚ) :
    (orchestratorPredict outcomes clue_number oracle_synthesis total_latency_ms).isSome ∧
    (orchestratorPredict outcomes clue_number oracle_synthesis total_latency_ms).map
        (·.agents_failed) =
      some (agentNames.filter (fun a => outcomeFailed (outcomes a))) ∧
    (orchestratorPredict outcomes clue_number oracle_synthesis total_latency_ms).map
        (·.agents_responded) =
      some (agentNames.filter (fun a => !outcomeFailed (outcomes a))).length ∧
    ((∀ a ∈ agentNames, outcomeFailed (outcomes a)) →
      (orchestratorPredict outcomes clue_number oracle_synthesis total_latency_ms).map
          (·.voting) =
        some emptyVotingResult) := by
  have hvr := vote_agreement_mem
    (((agentNames.map (fun name => runAgent name (outcomes name))).filterMap
      (fun r => r.2.map (fun p => (r.1, p)))).map (fun kv => (kv.1, some kv.2)))
    clue_number
  obtain ⟨x, hx⟩ :=
    Option.isSome_iff_exists.mp (should_guess_isSome _ clue_number hvr)
  obtain ⟨sg, rationale⟩ := x
  have hres : orchestratorPredict outcomes clue_number oracle_synthesis total_latency_ms =
      some { predictions := (agentNames.map (fun name => runAgent name (outcomes name))).filterMap
               (fun r => r.2.map (fun p => (r.1, p)))
             voting := vote (((agentNames.map (fun name => runAgent name (outcomes name))).filterMap
               (fun r => r.2.map (fun p => (r.1, p)))).map (fun kv => (kv.1, some kv.2))) clue_number
             should_guess := sg
             guess_rationale := rationale
             total_latency_ms := total_latency_ms
             agents_responded := ((agentNames.map (fun name => runAgent name (outcomes name))).filterMap
               (fun r => r.2.map (fun p => (r.1, p)))).length
             agents_failed := (agentNames.map (fun name => runAgent name (outcomes name))).filterMap
               (fun r => if r.2.isNone then some r.1 else none)
             oracle_synthesis := oracle_synthesis } := by
    unfold orchestratorPredict
    dsimp only
    rw [hx]
  refine ⟨by rw [hres]; rfl, ?_, ?_, ?_⟩
  · rw [hres]
    simp only [Option.map_some']
    rw [runAgent_failed_list]
  · rw [hres]
    simp only [Option.map_some']
    rw [runAgent_preds_list, runAgent_preds_length]
  · intro hall
    rw [hres]
    simp only [Option.map_some']
    have hnil : (agentNames.map (fun name => runAgent name (outcomes name))).filterMap
        (fun r => r.2.map (fun p => (r.1, p))) = [] := by
      rw [runAgent_preds_list]
      rw [List.filterMap_eq_nil_iff]
      intro a ha
      have := hall a ha
      cases h : outcomes a
      · rw [h] at this
        simp [outcomeFailed] at this
      · simp
      · simp
    rw [hnil]
    rfl

/-- **C2 witness**: all five specialists time out. -/
theorem C2_witness :
    (orchestratorPredict (fun _ => AgentOutcome.timeout) 2 none 0).map (·.voting) =
      some emptyVotingResult ∧
    (orchestratorPredict (fun _ => AgentOutcome.timeout) 2 none 0).map
      (·.agents_responded) = some 0 := by
  refine ⟨(C2_orchestrator_resilient (fun _ => AgentOutcome.timeout) 2 none 0).2.2.2
    (by decide), ?_⟩
  have h := (C2_orchestrator_resilient (fun _ => AgentOutcome.timeout) 2 none 0).2.2.1
  rw [h]
  decide

theorem mkPredictionResponse_some {session_id : String} {clue_number : Nat}
    {agents : List (String × APIAgentPrediction)} {recommended_pick : String}
    {key_insight : String} {agreement_strength : String}
    {agents_responded : Nat} {agreements : List String}
    {guess_recommendation : GuessRecommendation} {elapsed_time : ℚ}
    {clue_history : List String} {r : PredictionResponse}
    (h : mkPredictionResponse session_id clue_number agents recommended_pick
      key_insight agreement_strength agents_responded agreements
      guess_recommendation elapsed_time clue_history = some r) :
    r.clue_number = clue_number ∧ 1 ≤ clue_number ∧ clue_number ≤ 5 := by
  unfold mkPredictionResponse at h
  split at h
  · rename_i hcond
    rw [← Option.some.inj h]
    exact ⟨rfl, hcond.1, hcond.2⟩
  · exact absurd h (by simp)

theorem mkPredictionResponse_none_of_gt {session_id : String}
    {clue_number : Nat} {agents : List (String × APIAgentPrediction)}
    {recommended_pick : String} {key_insight : String}
    {agreement_strength : String} {agents_responded : Nat}
    {agreements : List String} {guess_recommendation : GuessRecommendation}
    {elapsed_time : ℚ} {clue_history : List String} (h : 5 < clue_number) :
    mkPredictionResponse session_id clue_number agents recommended_pick
      key_insight agreement_strength agents_responded agreements
      guess_recommendation elapsed_time clue_history = none := by
  unfold mkPredictionResponse
  rw [if_neg]
  intro hcond
  omega

unseal Rat.add Rat.mul Rat.sub Rat.inv Rat.ofScientific in
/-- **C10 counterexample**: the predict route has no up-front turn cap —
a sixth clue submission computes turn number 6 (> 5, so the turn number,
which equals the clue count, does exceed 5) and the clue is appended and
retained in the stored session rather than the submission being rejected
before processing; the caller nonetheless receives an explicit error
(`none`, the route's HTTP 500) — here because the `PredictionResponse`
construction rejects `clue_number = 6` even when the orchestrator call
succeeds, and likewise when that call itself raises. -/
theorem C10_counterexample :
    (c10Session5.clues.length = 5) ∧
    ((predictRoute "sid" c10Session5 c10Request (fun _ _ => some c10Result)
      2 0).1.clues.length = 6) ∧
    (5 < 6) ∧
    ((predictRoute "sid" c10Session5 c10Request (fun _ _ => some c10Result)
      2 0).2 = none) ∧
    ((predictRoute "sid" c10Session5 c10Request (fun _ _ => none)
      2 0).2 = none) := by decide

/-- **C10 amended**: for every session the turn number equals the number
of clues submitted and increases by exactly one per submitted clue — the
appended clue persists in the session even when the request fails — and
although the route has no cap check of its own, a submission that takes
the turn number past 5 always ends in an explicit error to the caller
(HTTP 500) and never in a normal turn result: whatever the orchestrator
call does, building the response for an out-of-range `clue_number` raises
its `le=5` validation, and every normal response that is returned carries
a turn number between 1 and 5. -/
theorem C10_turn_count_uncapped (session_id : String) (s : SessionState)
    (request : ClueRequest)
    (call : Nat → Option String → Option OrchestratorResult)
    (elapsed now : ℚ) :
    ((predictRoute session_id s request call elapsed now).1.clues.length =
      s.clues.length + 1) ∧
    (5 < s.clues.length + 1 →
      (predictRoute session_id s request call elapsed now).2 = none) ∧
    (∀ r, (predictRoute session_id s request call elapsed now).2 = some r →
      r.clue_number = s.clues.length + 1 ∧
        1 ≤ r.clue_number ∧ r.clue_number ≤ 5) := by
  refine ⟨?_, ?_, ?_⟩
  · unfold predictRoute
    dsimp only
    split
    · simp
    · split
      · simp
      · split
        · simp
        · simp
  · intro hn
    unfold predictRoute
    dsimp only
    split
    · rfl
    · split
      · rfl
      · split
        · rfl
        · rename_i response heq
          rw [mkPredictionResponse_none_of_gt (by simpa using hn)] at heq
          exact absurd heq (by simp)
  · intro r hr
    unfold predictRoute at hr
    dsimp only at hr
    split at hr
    · exact absurd hr (by simp)
    · split at hr
      · exact absurd hr (by simp)
      · split at hr
        · exact absurd hr (by simp)
        · rename_i response heq
          have hmk := mkPredictionResponse_some heq
          have hr' : response = r := by simpa using hr
          rw [← hr']
          have hlen : (s.clues ++ [request.clue_text]).length =
              s.clues.length + 1 := by simp
          rw [hlen] at hmk
          exact ⟨hmk.1, by rw [hmk.1]; exact hmk.2.1,
            by rw [hmk.1]; exact hmk.2.2⟩

theorem assocAppend_keys {α : Type} (d : List (String × List α)) (k : String)
    (v : α) :
    (assocAppend d k v).map Prod.fst =
      if (d.find? (fun kv => kv.1 == k)).isSome then d.map Prod.fst
      else d.map Prod.fst ++ [k] := by
  unfold assocAppend
  split
  · rw [List.map_map]
    apply List.map_congr_left
    intro kv _
    by_cases hk : kv.1 = k <;> simp [hk]
  · simp

theorem assocAppend_keys_nodup {α : Type} (d : List (String × List α))
    (k : String) (v : α) (h : (d.map Prod.fst).Nodup) :
    ((assocAppend d k v).map Prod.fst).Nodup := by
  rw [assocAppend_keys]
  split
  · exact h
  · rename_i hfind
    have hk : k ∉ d.map Prod.fst := by
      intro hmem
      obtain ⟨kv, hkv, hfst⟩ := List.mem_map.mp hmem
      have : (d.find? (fun kv => kv.1 == k)).isSome := by
        rw [List.find?_isSome]
        exact ⟨kv, hkv, by simp [hfst]⟩
      exact hfind this
    simp [List.nodup_append, h, hk]

theorem dictGet_eq_some_mem {α : Type} {d : List (String × α)} {k : String}
    {v : α} (h : dictGet d k = some v) : (k, v) ∈ d := by
  unfold dictGet at h
  cases hf : d.find? (fun kv => kv.1 == k) with
  | none => rw [hf] at h; exact absurd h (by simp)
  | some x =>
    rw [hf] at h
    have hx := List.find?_some hf
    have hmem := List.mem_of_find?_eq_some hf
    have hk : x.1 = k := by simpa using hx
    have hv : x.2 = v := by simpa using h
    rw [← hk, ← hv]
    exact hmem

theorem mem_dictGet_of_nodup {α : Type} {d : List (String × α)}
    (h : (d.map Prod.fst).Nodup) {kv : String × α} (hm : kv ∈ d) :
    dictGet d kv.1 = some kv.2 := by
  induction d with
  | nil => simp at hm
  | cons x d ih =>
    rw [List.map_cons, List.nodup_cons] at h
    rcases List.mem_cons.mp hm with rfl | hm'
    · simp [dictGet, List.find?]
    · have hne : x.1 ≠ kv.1 := by
        intro he
        exact h.1 (he ▸ List.mem_map.mpr ⟨kv, hm', rfl⟩)
      have : (x.1 == kv.1) = false := by simpa using hne
      simp only [dictGet, List.find?, this]
      exact ih h.2 hm'

theorem keys_nodup_val_unique {α : Type} {d : List (String × α)}
    (h : (d.map Prod.fst).Nodup) {a : String} {x y : α}
    (hx : (a, x) ∈ d) (hy : (a, y) ∈ d) : x = y := by
  have h1 := mem_dictGet_of_nodup h hx
  have h2 := mem_dictGet_of_nodup h hy
  simp only at h1 h2
  rw [h1] at h2
  exact Option.some.inj h2

theorem dictGet_cons_ne {α : Type} (x : String × α) (d : List (String × α))
    (k' : String) (h : x.1 ≠ k') : dictGet (x :: d) k' = dictGet d k' := by
  have hb : (x.1 == k') = false := by simpa using h
  simp [dictGet, List.find?, hb]

theorem dictGet_cons_eq {α : Type} (x : String × α) (d : List (String × α))
    (k' : String) (h : x.1 = k') : dictGet (x :: d) k' = some x.2 := by
  have hb : (x.1 == k') = true := by simpa using h
  simp [dictGet, List.find?, hb]

theorem dictGet_assocAppend {α : Type} (d : List (String × List α))
    (k k' : String) (v : α) (h : (d.map Prod.fst).Nodup) :
    dictGet (assocAppend d k v) k' =
      if k' = k then some ((dictGet d k).getD [] ++ [v]) else dictGet d k' := by
  induction d with
  | nil =>
    have hnil : assocAppend ([] : List (String × List α)) k v = [(k, [v])] := rfl
    rw [hnil]
    by_cases hk : k' = k
    · rw [dictGet_cons_eq _ _ _ hk.symm, if_pos hk]
      rfl
    · rw [dictGet_cons_ne _ _ _ (fun he => hk he.symm), if_neg hk]
  | cons x d ih =>
    rw [List.map_cons, List.nodup_cons] at h
    have hxd : x.1 ∉ d.map Prod.fst := h.1
    have ihd := ih h.2
    by_cases hxk : x.1 = k
    · -- the head already holds key `k`; no tail entry has it
      have hbxk : (x.1 == k) = true := by simpa using hxk
      have hfind : ((x :: d).find? (fun kv => kv.1 == k)).isSome := by
        simp [List.find?, hbxk]
      have hdmap :
          d.map (fun kv => if kv.1 == k then (kv.1, kv.2 ++ [v]) else kv) = d := by
        have hcong : ∀ kv ∈ d,
            (if kv.1 == k then (kv.1, kv.2 ++ [v]) else kv) = id kv := by
          intro kv hkv
          have hne : kv.1 ≠ k :=
            fun he => hxd (hxk ▸ he ▸ List.mem_map.mpr ⟨kv, hkv, rfl⟩)
          simp [hne]
        rw [List.map_congr_left hcong, List.map_id]
      unfold assocAppend
      rw [if_pos hfind, List.map_cons, if_pos hbxk, hdmap]
      by_cases hk' : k' = k
      · rw [if_pos hk', dictGet_cons_eq x d k hxk,
          dictGet_cons_eq (x.1, x.2 ++ [v]) d k' (hxk.trans hk'.symm)]
        rfl
      · rw [if_neg hk',
          dictGet_cons_ne (x.1, x.2 ++ [v]) d k' (fun he => hk' (hxk ▸ he).symm),
          dictGet_cons_ne x d k' (fun he => hk' (hxk ▸ he).symm)]
    · have hbxk : (x.1 == k) = false := by simpa using hxk
      by_cases hfind : (d.find? (fun kv => kv.1 == k)).isSome
      · have hfind' : ((x :: d).find? (fun kv => kv.1 == k)).isSome := by
          simpa [List.find?, hbxk] using hfind
        have htail :
            d.map (fun kv => if kv.1 == k then (kv.1, kv.2 ++ [v]) else kv) =
              assocAppend d k v := by
          unfold assocAppend
          rw [if_pos hfind]
        have hbxk' : ¬((x.1 == k) = true) := by simp [hbxk]
        unfold assocAppend
        rw [if_pos hfind', List.map_cons, if_neg hbxk', htail]
        by_cases hk'x : x.1 = k'
        · have hk'k : k' ≠ k := fun he => hxk (hk'x.trans he)
          rw [dictGet_cons_eq _ _ _ hk'x, if_neg hk'k,
            dictGet_cons_eq _ _ _ hk'x]
        · rw [dictGet_cons_ne _ _ _ hk'x, ihd,
            dictGet_cons_ne _ _ _ hxk, dictGet_cons_ne _ _ _ hk'x]
      · have hfind' : ¬((x :: d).find? (fun kv => kv.1 == k)).isSome := by
          simpa [List.find?, hbxk] using hfind
        have htail : d ++ [(k, [v])] = assocAppend d k v := by
          unfold assocAppend
          rw [if_neg hfind]
        unfold assocAppend
        rw [if_neg hfind', List.cons_append, htail]
        by_cases hk'x : x.1 = k'
        · have hk'k : k' ≠ k := fun he => hxk (hk'x.trans he)
          rw [dictGet_cons_eq _ _ _ hk'x, if_neg hk'k,
            dictGet_cons_eq _ _ _ hk'x]
        · rw [dictGet_cons_ne _ _ _ hk'x, ihd,
            dictGet_cons_ne _ _ _ hxk, dictGet_cons_ne _ _ _ hk'x]

theorem clusterStep_keys_nodup (acc : List (String × List String))
    (kv : String × Option AgentPrediction) (h : (acc.map Prod.fst).Nodup) :
    ((clusterStep acc kv).map Prod.fst).Nodup := by
  obtain ⟨name, o⟩ := kv
  cases o with
  | none => exact h
  | some pred => exact assocAppend_keys_nodup acc _ name h

theorem clusterFold_keys_nodup (predictions : List (String × Option AgentPrediction)) :
    ∀ acc : List (String × List String), (acc.map Prod.fst).Nodup →
      ((predictions.foldl clusterStep acc).map Prod.fst).Nodup := by
  induction predictions with
  | nil => intro acc h; simpa using h
  | cons kv preds ih =>
    intro acc h
    rw [List.foldl_cons]
    exact ih _ (clusterStep_keys_nodup acc kv h)

theorem mem_clusterFold (predictions : List (String × Option AgentPrediction)) :
    ∀ acc : List (String × List String), (acc.map Prod.fst).Nodup →
    ∀ (k a : String),
      (a ∈ (dictGet (predictions.foldl clusterStep acc) k).getD []) ↔
        (a ∈ (dictGet acc k).getD [] ∨
          ∃ pa, (a, some pa) ∈ predictions ∧ normalize_answer pa.answer = k) := by
  induction predictions with
  | nil =>
    intro acc h k a
    simp
  | cons kv preds ih =>
    intro acc h k a
    obtain ⟨name, o⟩ := kv
    rw [List.foldl_cons]
    cases o with
    | none =>
      have hstep : clusterStep acc (name, none) = acc := rfl
      rw [hstep, ih acc h k a]
      constructor
      · rintro (hm | ⟨pa, hpa, hk⟩)
        · exact Or.inl hm
        · exact Or.inr ⟨pa, List.mem_cons_of_mem _ hpa, hk⟩
      · rintro (hm | ⟨pa, hpa, hk⟩)
        · exact Or.inl hm
        · rcases List.mem_cons.mp hpa with he | hm'
          · simp at he
          · exact Or.inr ⟨pa, hm', hk⟩
    | some pred =>
      have hstep : clusterStep acc (name, some pred) =
          assocAppend acc (normalize_answer pred.answer) name := rfl
      rw [hstep, ih _ (assocAppend_keys_nodup acc _ name h) k a,
        dictGet_assocAppend acc _ k name h]
      by_cases hk : k = normalize_answer pred.answer
      · subst hk
        rw [if_pos rfl]
        simp only [Option.getD_some, List.mem_append, List.mem_singleton]
        constructor
        · rintro ((hm | ha) | ⟨pa, hpa, hnorm⟩)
          · exact Or.inl hm
          · exact Or.inr ⟨pred, by simp [ha], rfl⟩
          · exact Or.inr ⟨pa, List.mem_cons_of_mem _ hpa, hnorm⟩
        · rintro (hm | ⟨pa, hpa, hnorm⟩)
          · exact Or.inl (Or.inl hm)
          · rcases List.mem_cons.mp hpa with he | hm'
            · have ha := congrArg Prod.fst he
              simp only at ha
              exact Or.inl (Or.inr ha)
            · exact Or.inr ⟨pa, hm', hnorm⟩
      · rw [if_neg hk]
        constructor
        · rintro (hm | ⟨pa, hpa, hnorm⟩)
          · exact Or.inl hm
          · exact Or.inr ⟨pa, List.mem_cons_of_mem _ hpa, hnorm⟩
        · rintro (hm | ⟨pa, hpa, hnorm⟩)
          · exact Or.inl hm
          · rcases List.mem_cons.mp hpa with he | hm'
            · have hpa' := congrArg Prod.snd he
              simp at hpa'
              exact absurd (hpa' ▸ hnorm) (fun hh => hk hh.symm)
            · exact Or.inr ⟨pa, hm', hnorm⟩

/-- **C4 counterexample**: the claim says a single leading article is
stripped, but `normalize_answer` checks "the ", "a ", "an " in sequence and
can strip one occurrence of each: `normalize_answer "the a cat" = "cat"`,
while the claim's single-article normalization gives `"a cat"`. -/
theorem C4_counterexample :
    normalize_answer "the a cat" = "cat" ∧
    normalizeSingleArticle "the a cat" = "a cat" ∧
    normalize_answer "the a cat" ≠ normalizeSingleArticle "the a cat" := by
  decide

unseal Rat.add Rat.mul Rat.sub Rat.inv Rat.ofScientific in
/-- **C4 amended**: normalization lowercases, trims, and strips at most
one leading occurrence of each article in the order "the ", "a ", "an "
(so stacked articles like "the a cat" lose more than one); clustering
groups agents exactly by equality of normalized answers: under distinct
agent names, two agents land in the same cluster iff their normalized
answers are identical, and `normalize_answer " The Bowling " =
normalize_answer "bowling"`. -/
theorem C4_clustering_by_normalized_equality :
    (normalize_answer " The Bowling " = normalize_answer "bowling") ∧
    (normalize_answer "the a cat" = "cat") ∧
    (∀ (predictions : List (String × Option AgentPrediction)),
      (predictions.map Prod.fst).Nodup →
      ∀ (a b : String) (pa pb : AgentPrediction),
        (a, some pa) ∈ predictions → (b, some pb) ∈ predictions →
        ((∃ c ∈ cluster_predictions predictions, a ∈ c.2 ∧ b ∈ c.2) ↔
          normalize_answer pa.answer = normalize_answer pb.answer)) := by
  refine ⟨by decide, by decide, ?_⟩
  intro predictions hnd a b pa pb ha hb
  have hclnd : ((cluster_predictions predictions).map Prod.fst).Nodup :=
    clusterFold_keys_nodup predictions [] (by simp)
  have hmem := mem_clusterFold predictions [] (by simp)
  constructor
  · rintro ⟨c, hc, hac, hbc⟩
    have hlk : dictGet (cluster_predictions predictions) c.1 = some c.2 :=
      mem_dictGet_of_nodup hclnd hc
    have hmema : a ∈ (dictGet (cluster_predictions predictions) c.1).getD [] := by
      rw [hlk]
      exact hac
    have hmemb : b ∈ (dictGet (cluster_predictions predictions) c.1).getD [] := by
      rw [hlk]
      exact hbc
    rcases (hmem c.1 a).mp hmema with hfalse | ⟨pa', hpa', hna⟩
    · simp [dictGet] at hfalse
    rcases (hmem c.1 b).mp hmemb with hfalse | ⟨pb', hpb', hnb⟩
    · simp [dictGet] at hfalse
    have hea : some pa' = some pa := keys_nodup_val_unique hnd hpa' ha
    have heb : some pb' = some pb := keys_nodup_val_unique hnd hpb' hb
    rw [Option.some.inj hea] at hna
    rw [Option.some.inj heb] at hnb
    rw [hna, hnb]
  · intro heq
    have hmema : a ∈ (dictGet (cluster_predictions predictions)
        (normalize_answer pa.answer)).getD [] :=
      (hmem (normalize_answer pa.answer) a).mpr (Or.inr ⟨pa, ha, rfl⟩)
    have hmemb : b ∈ (dictGet (cluster_predictions predictions)
        (normalize_answer pa.answer)).getD [] :=
      (hmem (normalize_answer pa.answer) b).mpr (Or.inr ⟨pb, hb, heq.symm⟩)
    cases hdg : dictGet (cluster_predictions predictions)
        (normalize_answer pa.answer) with
    | none =>
      rw [hdg] at hmema
      simp at hmema
    | some l =>
      rw [hdg] at hmema hmemb
      exact ⟨(normalize_answer pa.answer, l), dictGet_eq_some_mem hdg,
        hmema, hmemb⟩

unseal Rat.add Rat.mul Rat.sub Rat.inv Rat.ofScientific in
/-- **C4 witness**. -/
theorem C4_witness :
    (∃ c ∈ cluster_predictions c4Predictions,
        "lateral" ∈ c.2 ∧ "wordsmith" ∈ c.2) ↔
      normalize_answer " The Bowling " = normalize_answer "bowling" :=
  C4_clustering_by_normalized_equality.2.2 c4Predictions (by decide)
    "lateral" "wordsmith" ⟨" The Bowling ", 0.85, "terms", "lateral", 0⟩
    ⟨"bowling", 0.80, "puns", "wordsmith", 0⟩ (by decide) (by decide)

unseal Rat.add Rat.mul Rat.sub Rat.inv Rat.ofScientific in
/-- **C7 counterexample**: the hypothesis ledger key is
`top_answer.lower()`, not the `normalize_answer` (article-stripped) key the
claim names — "The Bowling" is tracked under "the bowling", and the key
"bowling" is absent; moreover a present runner-up with confidence `0.0` is
not appended at all (its key "dice" is absent). -/
theorem C7_counterexample :
    update_hypothesis_tracker [] c7Analysis = [("the bowling", [0.8])] ∧
    normalize_answer "The Bowling" = "bowling" ∧
    normalize_answer "A Dice" = "dice" ∧
    dictGet (update_hypothesis_tracker [] c7Analysis) "bowling" = none ∧
    dictGet (update_hypothesis_tracker [] c7Analysis) "dice" = none := by
  decide

/-- **C7 amended**: `update_hypothesis_tracker` appends the winning
cluster's confidence under `top_answer.lower()` (plain lowercasing, no
article stripping), appends the runner-up's confidence under
`alt_answer.lower()` only when the runner-up answer is non-empty and its
confidence non-zero, and modifies no other key. -/
theorem C7_update_tracker_amended (tracker : List (String × List ℚ))
    (analysis : ClueAnalysis) (hnd : (tracker.map Prod.fst).Nodup) :
    (∀ s q, analysis.alt_answer = some s → analysis.alt_confidence = some q →
      s ≠ "" → q ≠ 0 → pyLower s ≠ pyLower analysis.top_answer →
      dictGet (update_hypothesis_tracker tracker analysis)
          (pyLower analysis.top_answer) =
        some ((dictGet tracker (pyLower analysis.top_answer)).getD [] ++
          [analysis.top_confidence]) ∧
      dictGet (update_hypothesis_tracker tracker analysis) (pyLower s) =
        some ((dictGet tracker (pyLower s)).getD [] ++ [q]) ∧
      (∀ k, k ≠ pyLower analysis.top_answer → k ≠ pyLower s →
        dictGet (update_hypothesis_tracker tracker analysis) k =
          dictGet tracker k)) ∧
    (∀ s q, analysis.alt_answer = some s → analysis.alt_confidence = some q →
      s ≠ "" → q ≠ 0 → pyLower s = pyLower analysis.top_answer →
      dictGet (update_hypothesis_tracker tracker analysis)
          (pyLower analysis.top_answer) =
        some ((dictGet tracker (pyLower analysis.top_answer)).getD [] ++
          [analysis.top_confidence, q]) ∧
      (∀ k, k ≠ pyLower analysis.top_answer →
        dictGet (update_hypothesis_tracker tracker analysis) k =
          dictGet tracker k)) ∧
    ((analysis.alt_answer = none ∨ analysis.alt_confidence = none ∨
        analysis.alt_answer = some "" ∨ analysis.alt_confidence = some 0) →
      dictGet (update_hypothesis_tracker tracker analysis)
          (pyLower analysis.top_answer) =
        some ((dictGet tracker (pyLower analysis.top_answer)).getD [] ++
          [analysis.top_confidence]) ∧
      (∀ k, k ≠ pyLower analysis.top_answer →
        dictGet (update_hypothesis_tracker tracker analysis) k =
          dictGet tracker k)) := by
  have h1nd : ((assocAppend tracker (pyLower analysis.top_answer)
      analysis.top_confidence).map Prod.fst).Nodup :=
    assocAppend_keys_nodup tracker _ _ hnd
  refine ⟨?_, ?_, ?_⟩
  · intro s q hs hq hs' hq' hkey
    have hupd : update_hypothesis_tracker tracker analysis =
        trackerAppend (trackerAppend tracker (pyLower analysis.top_answer)
          analysis.top_confidence) (pyLower s) q := by
      unfold update_hypothesis_tracker
      rw [hs, hq]
      dsimp only
      rw [if_pos ⟨hs', hq'⟩]
    rw [hupd]
    unfold trackerAppend
    refine ⟨?_, ?_, ?_⟩
    · rw [dictGet_assocAppend _ _ _ _ h1nd, if_neg (fun he => hkey he.symm),
        dictGet_assocAppend _ _ _ _ hnd, if_pos rfl]
    · rw [dictGet_assocAppend _ _ _ _ h1nd, if_pos rfl,
        dictGet_assocAppend _ _ _ _ hnd, if_neg hkey]
    · intro k hk1 hk2
      rw [dictGet_assocAppend _ _ _ _ h1nd, if_neg hk2,
        dictGet_assocAppend _ _ _ _ hnd, if_neg hk1]
  · intro s q hs hq hs' hq' hkey
    have hupd : update_hypothesis_tracker tracker analysis =
        trackerAppend (trackerAppend tracker (pyLower analysis.top_answer)
          analysis.top_confidence) (pyLower s) q := by
      unfold update_hypothesis_tracker
      rw [hs, hq]
      dsimp only
      rw [if_pos ⟨hs', hq'⟩]
    rw [hupd]
    unfold trackerAppend
    constructor
    · rw [dictGet_assocAppend _ _ _ _ h1nd, if_pos hkey.symm,
        dictGet_assocAppend _ _ _ _ hnd, if_pos hkey]
      simp
    · intro k hk1
      rw [dictGet_assocAppend _ _ _ _ h1nd,
        if_neg (fun he => hk1 (he.trans hkey)),
        dictGet_assocAppend _ _ _ _ hnd, if_neg hk1]
  · intro halt
    have hupd : update_hypothesis_tracker tracker analysis =
        trackerAppend tracker (pyLower analysis.top_answer)
          analysis.top_confidence := by
      unfold update_hypothesis_tracker
      rcases halt with h | h | h | h
      · rw [h]
      · rw [h]
        cases analysis.alt_answer <;> rfl
      · rw [h]
        cases hac : analysis.alt_confidence
        · rfl
        · dsimp only
          rw [if_neg (fun hcon => hcon.1 rfl)]
      · rw [h]
        cases haa : analysis.alt_answer
        · rfl
        · dsimp only
          rw [if_neg (fun hcon => hcon.2 rfl)]
    rw [hupd]
    unfold trackerAppend
    constructor
    · rw [dictGet_assocAppend _ _ _ _ hnd, if_pos rfl]
    · intro k hk1
      rw [dictGet_assocAppend _ _ _ _ hnd, if_neg hk1]

unseal Rat.add Rat.mul Rat.sub Rat.inv Rat.ofScientific in
/-- **C7 witness**. -/
theorem C7_witness :
    dictGet (update_hypothesis_tracker c7TrackerEx c7AnalysisAlt)
        (pyLower c7AnalysisAlt.top_answer) =
      some ((dictGet c7TrackerEx (pyLower c7AnalysisAlt.top_answer)).getD [] ++
        [c7AnalysisAlt.top_confidence]) ∧
    dictGet (update_hypothesis_tracker c7TrackerEx c7AnalysisAlt)
        (pyLower "A Dice") =
      some ((dictGet c7TrackerEx (pyLower "A Dice")).getD [] ++ [0.3]) := by
  have h := (C7_update_tracker_amended c7TrackerEx c7AnalysisAlt (by decide)).1
    "A Dice" 0.3 rfl rfl (by decide) (by decide) (by decide)
  exact ⟨h.1, h.2.1⟩

theorem analysisBlock_scrub (full_predictions : Bool) (analysis : ClueAnalysis) :
    analysisBlock full_predictions (scrubAnalysis analysis) =
      analysisBlock full_predictions analysis := by
  cases analysis
  rfl

theorem thinkerBlock_scrub (thinker_context : Option ThinkerContext) (n : Int) :
    thinkerBlock (thinker_context.map scrubThinkerContext) n =
      thinkerBlock thinker_context n := by
  cases thinker_context with
  | none => rfl
  | some tc => cases tc; rfl

theorem summarizeEvolution_scrub (analyses : List ClueAnalysis) :
    summarizeEvolution (analyses.map scrubAnalysis) =
      summarizeEvolution analyses := by
  unfold summarizeEvolution
  rw [List.head?_map, List.getLast?_map, List.length_map]
  cases analyses.head? <;> cases analyses.getLast? <;> rfl

theorem generate_scrub (analyses : List ClueAnalysis) (n : Int)
    (full_predictions : Bool) (thinker_context : Option ThinkerContext) :
    generate_context_injection (analyses.map scrubAnalysis) n full_predictions
        (thinker_context.map scrubThinkerContext) =
      generate_context_injection analyses n full_predictions thinker_context := by
  unfold generate_context_injection
  rw [thinkerBlock_scrub, summarizeEvolution_scrub, List.length_map,
    List.map_map,
    show (analysisBlock full_predictions ∘ scrubAnalysis) =
        analysisBlock full_predictions from
      funext (analysisBlock_scrub full_predictions),
    show (analyses.map scrubAnalysis).isEmpty = analyses.isEmpty by
      cases analyses <;> rfl]

/-- **C9**: context injection is deterministic — its output depends only
on the logical content of `(analyses, current turn, thinker context)`:
inputs equal after forgetting the wall-clock fields (`analyzed_at`,
`last_updated`) produce byte-identical strings, so no timestamp or other
run-dependent datum reaches the output. -/
theorem C9_context_injection_deterministic (a₁ a₂ : List ClueAnalysis)
    (n : Int) (full_predictions : Bool) (t₁ t₂ : Option ThinkerContext)
    (ha : a₁.map scrubAnalysis = a₂.map scrubAnalysis)
    (ht : t₁.map scrubThinkerContext = t₂.map scrubThinkerContext) :
    generate_context_injection a₁ n full_predictions t₁ =
      generate_context_injection a₂ n full_predictions t₂ := by
  rw [← generate_scrub a₁ n full_predictions t₁,
    ← generate_scrub a₂ n full_predictions t₂, ha, ht]

/-- **C9 witness**: same logical inputs, different wall-clock fields. -/
theorem C9_witness :
    generate_context_injection [c9Analysis 55] 2 true (some ⟨[c9Insight], 111⟩) =
      generate_context_injection [c9Analysis 77] 2 true (some ⟨[c9Insight], 222⟩) :=
  C9_context_injection_deterministic [c9Analysis 55] [c9Analysis 77] 2 true
    (some ⟨[c9Insight], 111⟩) (some ⟨[c9Insight], 222⟩) rfl rfl

/-- **C10 witness**. -/
theorem C10_witness :
    ((predictRoute "sid" c10Session5 c10Request (fun _ _ => some c10Result)
      2 0).1.clues.length = c10Session5.clues.length + 1) ∧
    ((predictRoute "sid" c10Session5 c10Request (fun _ _ => some c10Result)
      2 0).2 = none) := by
  have h := C10_turn_count_uncapped "sid" c10Session5 c10Request
    (fun _ _ => some c10Result) 2 0
  exact ⟨h.1, h.2.1 (by decide)⟩
